import Mathlib

/-!
Verification development for the trade-alert repository.

The definitions below are a shallow embedding of the signal-evaluation
engine in `enhanced_strategy_engine.py`, the market-data entry point in
`data_handler.py`, and the configuration constants in `config.py`.

Modelling conventions:
* Python floats appearing in candle data and indicator columns are
  modelled as `ℚ` (exact arithmetic); the position-sizing routine, whose
  behaviour on IEEE special values (NaN / Inf) is itself under scrutiny,
  is modelled over an explicit `PyFloat` type with `nan` / `inf` / `ninf`
  constructors and Python semantics for `-`, `abs`, `/`, `==` and `min`.
* A pandas DataFrame is modelled as a list of base OHLCV rows plus one
  optional list per derived indicator column; a missing column models a
  frame in which that column was never created, so that a column access
  raises `KeyError` (caught by the enclosing `try/except`, which returns
  `None` / a default, exactly as in the source).
* `datetime.now()` timestamps are rational numbers measured in minutes;
  each strategy-check call carries the wall-clock values the Python code
  would read during that call.
* A rolling-window statistic that pandas would report as `NaN` (window
  not yet full) is an `Option ℚ` that is `none`; comparisons against it
  are `False`, matching NaN comparison semantics.
-/

namespace TradeAlert

/-- One OHLCV candle row (`open` is a Lean keyword, hence `open_`). -/
structure Candle where
  open_ : ℚ
  high : ℚ
  low : ℚ
  close : ℚ
  volume : ℚ
deriving DecidableEq, Repr

/-- Signal direction; the source uses the strings `'long'` / `'short'`. -/
inductive Direction
  | long
  | short
deriving DecidableEq, Repr

/-- The three strategies, keyed in the source by these dictionary keys. -/
inductive Strat
  | aggressive_momentum_ignition
  | moderate_ema_crossover
  | conservative_trend_rider
deriving DecidableEq, Repr

/-- Per-strategy alert state: `{'long': False, 'short': False, 'last_alert_time': None}`. -/
structure AlertState where
  long : Bool
  short : Bool
  last_alert_time : Option ℚ
deriving DecidableEq, Repr

/-- The engine's `self.alert_states` dictionary (one entry per strategy). -/
structure AlertStates where
  aggressive : AlertState
  moderate : AlertState
  conservative : AlertState
deriving DecidableEq, Repr

/-- Dictionary lookup `self.alert_states[profile]`. -/
def AlertStates.get (s : AlertStates) : Strat → AlertState
  | Strat.aggressive_momentum_ignition => s.aggressive
  | Strat.moderate_ema_crossover => s.moderate
  | Strat.conservative_trend_rider => s.conservative

/-- Dictionary update `self.alert_states[profile] = st`. -/
def AlertStates.set (s : AlertStates) : Strat → AlertState → AlertStates
  | Strat.aggressive_momentum_ignition, st => { s with aggressive := st }
  | Strat.moderate_ema_crossover, st => { s with moderate := st }
  | Strat.conservative_trend_rider, st => { s with conservative := st }

/-- The state built in `EnhancedStrategyEngine.__init__`: all flags false,
no previous alert times. -/
def alertStatesInit : AlertStates :=
  { aggressive := { long := false, short := false, last_alert_time := none }
  , moderate := { long := false, short := false, last_alert_time := none }
  , conservative := { long := false, short := false, last_alert_time := none } }

/-! ### Configuration constants (`config.py`) -/

/-- Config `ALERT_COOLDOWN_MINUTES = 30`. -/
def ALERT_COOLDOWN_MINUTES : ℚ := 30

/-- Config `MAX_RETRIES = 3`. -/
def MAX_RETRIES : ℕ := 3

/-- Config `RISK_MANAGEMENT['position_sizing']['max_risk_per_trade'] = 0.02`. -/
def max_risk_per_trade : ℚ := 2/100

/-- Lookup `CAPITAL_ALLOCATION.get(strategy_name, 0.33)` as used by
`_calculate_position_size` (string-keyed, with the source's default). -/
def CAPITAL_ALLOCATION_get (strategy_name : String) : ℚ :=
  if strategy_name = "conservative_trend_rider" then 1/2
  else if strategy_name = "moderate_ema_crossover" then 3/10
  else if strategy_name = "aggressive_momentum_ignition" then 1/5
  else 33/100

/-- Lookup `RISK_MANAGEMENT['leverage_caps'].get(strategy_name, 1)`. -/
def leverage_caps_get (strategy_name : String) : ℚ :=
  if strategy_name = "aggressive_momentum_ignition" then 5
  else if strategy_name = "moderate_ema_crossover" then 3
  else if strategy_name = "conservative_trend_rider" then 1
  else 1

/-! ### A float model for the position-sizing routine

Python-float semantics for the handful of operations
`_calculate_position_size` performs: subtraction, `abs`, comparison with
zero via `==`, division of a finite constant by the price risk, and the
built-in `min` (which keeps the first argument unless the second compares
strictly smaller — hence `min(nan, x) = nan` while `min(x, nan) = x`). -/
inductive PyFloat
  | nan
  | inf
  | ninf
  | val (q : ℚ)
deriving DecidableEq, Repr

/-- Python float subtraction. -/
def PyFloat.sub : PyFloat → PyFloat → PyFloat
  | PyFloat.nan, _ => PyFloat.nan
  | _, PyFloat.nan => PyFloat.nan
  | PyFloat.inf, PyFloat.inf => PyFloat.nan
  | PyFloat.inf, _ => PyFloat.inf
  | PyFloat.ninf, PyFloat.ninf => PyFloat.nan
  | PyFloat.ninf, _ => PyFloat.ninf
  | PyFloat.val _, PyFloat.inf => PyFloat.ninf
  | PyFloat.val _, PyFloat.ninf => PyFloat.inf
  | PyFloat.val a, PyFloat.val b => PyFloat.val (a - b)

/-- Python `abs` on floats (`abs(nan) = nan`). -/
def PyFloat.fabs : PyFloat → PyFloat
  | PyFloat.nan => PyFloat.nan
  | PyFloat.inf => PyFloat.inf
  | PyFloat.ninf => PyFloat.inf
  | PyFloat.val q => PyFloat.val |q|

/-- Python `x == 0` on floats (`nan == 0` and `inf == 0` are `False`). -/
def PyFloat.eqZero : PyFloat → Bool
  | PyFloat.val q => decide (q = 0)
  | _ => false

/-- Python `<` on floats: `nan` is incomparable with everything. -/
def PyFloat.flt : PyFloat → PyFloat → Bool
  | PyFloat.nan, _ => false
  | _, PyFloat.nan => false
  | PyFloat.ninf, PyFloat.ninf => false
  | PyFloat.ninf, _ => true
  | _, PyFloat.ninf => false
  | PyFloat.inf, _ => false
  | PyFloat.val _, PyFloat.inf => true
  | PyFloat.val a, PyFloat.val b => decide (a < b)

/-- Python built-in `min(a, b)`: returns `b` only if `b < a`. -/
def PyFloat.pymin (a b : PyFloat) : PyFloat :=
  if PyFloat.flt b a then b else a

/-- Division `q / x` of a finite (rational) numerator by a float, as in
`risk_amount / price_risk`.  The `x = 0` case would raise
`ZeroDivisionError` in Python; the source guards it away with the
`price_risk == 0` check, so the value chosen here is never reached. -/
def PyFloat.divq (q : ℚ) (x : PyFloat) : PyFloat :=
  match x with
  | PyFloat.nan => PyFloat.nan
  | PyFloat.inf => PyFloat.val 0
  | PyFloat.ninf => PyFloat.val 0
  | PyFloat.val r => PyFloat.val (q / r)

/-- Is the float a finite value? -/
def PyFloat.finite : PyFloat → Bool
  | PyFloat.val _ => true
  | _ => false

/-- The rational carried by a finite float (0 for specials). -/
def PyFloat.toRat : PyFloat → ℚ
  | PyFloat.val q => q
  | _ => 0

/-- Model of `EnhancedStrategyEngine._calculate_position_size` (lines 209–240).
The strategy capital is hard-coded as `10000 *
CAPITAL_ALLOCATION.get(strategy_name, 0.33)`; the `try/except` returning
`0.0` is unreachable because none of the arithmetic below raises (the
division is guarded by the `price_risk == 0` check). -/
def _calculate_position_size (strategy_name : String)
    (entry_price stop_loss : PyFloat) : PyFloat :=
  let risk_per_trade := max_risk_per_trade
  let strategy_capital : ℚ := 10000 * CAPITAL_ALLOCATION_get strategy_name
  let risk_amount : ℚ := strategy_capital * risk_per_trade
  let price_risk := PyFloat.fabs (PyFloat.sub entry_price stop_loss)
  if price_risk.eqZero then PyFloat.val 0
  else
    let position_size := PyFloat.divq risk_amount price_risk
    let max_leverage := leverage_caps_get strategy_name
    let max_position_size : ℚ := strategy_capital * max_leverage
    let position_size2 := PyFloat.pymin position_size (PyFloat.val max_position_size)
    let safety_cap : ℚ := strategy_capital * 10
    PyFloat.pymin position_size2 (PyFloat.val safety_cap)

/-! ### Rolling / window helpers over column lists

pandas `Series.rolling(w).mean().iloc[-1]` is `NaN` unless at least `w`
values exist; `Series.min()` / `.max()` of an empty slice is `NaN`. -/

/-- The last `w` elements of a list. -/
def lastN (w : ℕ) (xs : List ℚ) : List ℚ := xs.drop (xs.length - w)

/-- Pandas `rolling(w).mean().iloc[-1]`: `none` when fewer than `w` rows exist. -/
def rollingMeanLast (w : ℕ) (xs : List ℚ) : Option ℚ :=
  if xs.length < w then none else some ((lastN w xs).sum / (w : ℚ))

/-- Pandas `Series.min()` (`none` = NaN of an empty slice). -/
def listMin : List ℚ → Option ℚ
  | [] => none
  | x :: xs => some (xs.foldl min x)

/-- Pandas `Series.max()`. -/
def listMax : List ℚ → Option ℚ
  | [] => none
  | x :: xs => some (xs.foldl max x)

/-- True range of candle `c` given the previous close `p.close`:
`max(high-low, |high-prev_close|, |low-prev_close|)`.  Aligned with rows
`1..n-1` of the frame (row 0 has `NaN` from the `shift()`). -/
def trList (rows : List Candle) : List ℚ :=
  (rows.zip rows.tail).map fun pc =>
    max (pc.2.high - pc.2.low) (max |pc.2.high - pc.1.close| |pc.2.low - pc.1.close|)

/-- The value `true_range.rolling(14).mean().iloc[-1]` as used by the volatility
filter and by the second `_calculate_atr` (line 854, the definition that
wins in Python): `none` (NaN) unless the frame has ≥ 15 rows. -/
def atrLast (rows : List Candle) : Option ℚ := rollingMeanLast 14 (trList rows)

/-! ### Shared filter helpers (`enhanced_strategy_engine.py`) -/

/-- Model of `_check_time_filter` (lines 86–103) with the parsed config window, in
minutes since UTC midnight.  The aggressive config has
`time_start = '09:30'`, `time_end = '16:00'`. -/
def _check_time_filter (tod time_start time_end : ℚ) : Bool :=
  if time_start ≤ time_end then decide (time_start ≤ tod ∧ tod ≤ time_end)
  else decide (time_start ≤ tod ∨ tod ≤ time_end)

/-- Model of `_check_session_filter` (lines 700–711): `12 <= current_hour <= 20`. -/
def _check_session_filter (current_hour : ℕ) : Bool :=
  decide (12 ≤ current_hour ∧ current_hour ≤ 20)

/-- Model of `_check_volatility_filter` (lines 105–124).  An empty frame makes
`iloc[-1]` raise, the `except` returns `True`; with 1–14 rows the ATR is
NaN and the `<=` comparison is `False`; division `atr / 0.0` of numpy
scalars yields `inf` (or `nan`), whose comparison is also `False`. -/
def _check_volatility_filter (rows : List Candle) (volatility_threshold : ℚ) : Bool :=
  if rows.isEmpty then true
  else
    match atrLast rows, rows.getLast? with
    | some current_atr, some r =>
        if r.close = 0 then false
        else decide (current_atr / r.close ≤ volatility_threshold)
    | _, _ => false

/-- Model of `_check_volume_confirmation` (lines 126–136): strictly
`current_volume > avg_volume * volume_multiplier`.  Empty frame → the
`iloc[-1]` raises and the `except` returns `True`; fewer than 20 rows →
the rolling mean is NaN and the comparison is `False`. -/
def _check_volume_confirmation (rows : List Candle) (volume_multiplier : ℚ) : Bool :=
  match rows.getLast? with
  | none => true
  | some current =>
    match rollingMeanLast 20 (rows.map Candle.volume) with
    | none => false
    | some avg_volume => decide (avg_volume * volume_multiplier < current.volume)

/-- Model of `_check_volume_spike` (lines 174–184): same body as
`_check_volume_confirmation`. -/
def _check_volume_spike (rows : List Candle) (required_multiplier : ℚ) : Bool :=
  match rows.getLast? with
  | none => true
  | some current =>
    match rollingMeanLast 20 (rows.map Candle.volume) with
    | none => false
    | some avg_volume => decide (avg_volume * required_multiplier < current.volume)

/-- Model of `_check_wick_confirmation` (lines 138–156). -/
def _check_wick_confirmation (current : Candle) : Bool :=
  let body_size := |current.close - current.open_|
  let upper_wick := current.high - max current.open_ current.close
  let lower_wick := min current.open_ current.close - current.low
  if current.open_ < current.close then
    decide (upper_wick < lower_wick ∧ body_size * (3/10) < lower_wick)
  else
    decide (lower_wick < upper_wick ∧ body_size * (3/10) < upper_wick)

/-- Model of `_check_candle_body_confirmation` (lines 158–172). -/
def _check_candle_body_confirmation (current : Candle) (min_body_pct : ℚ) : Bool :=
  let body_size := |current.close - current.open_|
  let total_range := current.high - current.low
  if total_range = 0 then false
  else decide (min_body_pct ≤ body_size / total_range)

/-! ### Alert-state machine primitives -/

/-- Model of `_check_alert_cooldown` (lines 60–68): `True` when no alert has fired
yet, else `now - last_alert_time >= ALERT_COOLDOWN_MINUTES`. -/
def _check_alert_cooldown (now : ℚ) (st : AlertState) : Bool :=
  match st.last_alert_time with
  | none => true
  | some t => decide (ALERT_COOLDOWN_MINUTES ≤ now - t)

/-- Model of `_update_alert_state` (lines 70–79): set the fired direction, stamp
`last_alert_time`, clear the opposite direction. -/
def _update_alert_state (s : AlertStates) (profile : Strat)
    (signal_type : Direction) (now : ℚ) : AlertStates :=
  match signal_type with
  | Direction.long =>
      s.set profile { long := true, short := false, last_alert_time := some now }
  | Direction.short =>
      s.set profile { long := false, short := true, last_alert_time := some now }

/-- Model of `_reset_alert_state` (lines 81–84): clear one direction's flag. -/
def _reset_alert_state (s : AlertStates) (profile : Strat)
    (signal_type : Direction) : AlertStates :=
  let st := s.get profile
  match signal_type with
  | Direction.long => s.set profile { st with long := false }
  | Direction.short => s.set profile { st with short := false }

/-- Model of `_check_volatility_blackout` (lines 275–290): placeholder, always
`False`. -/
def _check_volatility_blackout : Bool := false

/-- The `active_trades` sum of `_check_cross_strategy_risk_controls`:
how many strategies currently hold an active long-or-short flag. -/
def activeStrategyCount (s : AlertStates) : ℕ :=
  (cond (s.aggressive.long || s.aggressive.short) 1 0) +
  (cond (s.moderate.long || s.moderate.short) 1 0) +
  (cond (s.conservative.long || s.conservative.short) 1 0)

/-- Model of `_check_cross_strategy_risk_controls` (lines 247–273): `False` when
two or more strategies hold an active long-or-short flag (max 2
concurrent trades), or during a volatility blackout. -/
def _check_cross_strategy_risk_controls (s : AlertStates) : Bool :=
  if 2 ≤ activeStrategyCount s then false
  else if _check_volatility_blackout then false
  else true

/-! ### Enriched frames

Each frame is the base OHLCV rows plus one optional list per derived
column.  A `none` column models a frame in which `calculate_indicators`
never created that column, so that `row[col]` raises `KeyError`. -/

/-- The aggressive strategy's enriched 5-minute frame: STOCHRSI K/D
columns (`STOCHRSIk_8_2_11` / `STOCHRSId_8_2_11`) and the `RSI_11`
column read (only) by `_check_rsi_divergence`.  Note the aggressive
indicator list in the source requests just `STOCHRSI`, so the real live
path never creates `RSI_11`. -/
structure AggDf where
  rows : List Candle
  stochk : Option (List ℚ)
  stochd : Option (List ℚ)
  rsi11 : Option (List ℚ)
deriving DecidableEq, Repr

/-- The moderate strategy's enriched 15-minute frame: `EMA_8`, `EMA_34`,
`RSI_14`. -/
structure ModDf15 where
  rows : List Candle
  emaFast : Option (List ℚ)
  emaSlow : Option (List ℚ)
  rsi : Option (List ℚ)
deriving DecidableEq, Repr

/-- The moderate strategy's enriched 4-hour frame: `EMA_50`. -/
structure ModDf4h where
  rows : List Candle
  emaTrend : Option (List ℚ)
deriving DecidableEq, Repr

/-- The conservative strategy's enriched 4-hour frame: `EMA_50`,
`EMA_200`, `ADX_14`, `RSI_14`. -/
structure ConsDf where
  rows : List Candle
  emaFast : Option (List ℚ)
  emaSlow : Option (List ℚ)
  adx : Option (List ℚ)
  rsi : Option (List ℚ)
deriving DecidableEq, Repr

/-- Access `column.iloc[-1]`: `none` when the column is absent (KeyError) or has
no rows. -/
def colLast (col : Option (List ℚ)) : Option ℚ :=
  col.bind List.getLast?

/-- The pair `(column.iloc[-2], column.iloc[-1])`: `none` when the column
is absent or has fewer than two rows. -/
def col2 (col : Option (List ℚ)) : Option (ℚ × ℚ) :=
  col.bind fun l =>
    match l.reverse with
    | cur :: prev :: _ => some (prev, cur)
    | _ => none

/-- Model of `_check_rsi_divergence` (lines 292–327).  `df['RSI_11']` raises
`KeyError` when the column is absent (as it always is on the live
aggressive path, whose indicator list only requests STOCHRSI); the
`except` then returns `True`.  Window slices follow
`iloc[current_index-20 : current_index+1]`, `iloc[-10:]`,
`iloc[-20:-10]`. -/
def _check_rsi_divergence (df : AggDf) (direction : String)
    (current_index : ℕ) : Bool :=
  if current_index < 20 then true
  else
    match df.rsi11 with
    | none => true
    | some rsiCol =>
      let rsi_values := (rsiCol.drop (current_index - 20)).take 21
      let price_values := ((df.rows.map Candle.close).drop (current_index - 20)).take 21
      if rsi_values.length < 21 ∨ price_values.length < 21 then true
      else if direction = "bullish" then
        match listMin (price_values.drop 11), listMin ((price_values.drop 1).take 10),
              listMin (rsi_values.drop 11), listMin ((rsi_values.drop 1).take 10) with
        | some price_low_1, some price_low_2, some rsi_low_1, some rsi_low_2 =>
            decide (price_low_1 < price_low_2 ∧ rsi_low_2 < rsi_low_1)
        | _, _, _, _ => false
      else if direction = "bearish" then
        match listMax (price_values.drop 11), listMax ((price_values.drop 1).take 10),
              listMax (rsi_values.drop 11), listMax ((rsi_values.drop 1).take 10) with
        | some price_high_1, some price_high_2, some rsi_high_1, some rsi_high_2 =>
            decide (price_high_2 < price_high_1 ∧ rsi_high_1 < rsi_high_2)
        | _, _, _, _ => false
      else true

/-! ### Market-data fetch (`data_handler.py`, `fetch_ohlcv`, lines 85–149)

The loop makes up to `MAX_RETRIES` attempts; an attempt either raises
(`FetchAttempt.exc`) or returns raw rows (`FetchAttempt.ok`), where a
`none` entry is a row that `to_numeric(errors='coerce')` + `dropna()`
discards.  On the final failed attempt the function RE-RAISES (the
`raise` on line 149, documented in its own docstring), modelled as
`Except.error`. -/
inductive FetchAttempt
  | exc
  | ok (rows : List (Option Candle))
deriving DecidableEq, Repr

/-- The retry loop of `fetch_ohlcv`, with `remaining` attempts left. -/
def fetchGo : ℕ → List FetchAttempt → Except Unit (Option (List Candle))
  | 0, _ => Except.error ()
  | _ + 1, [] => Except.error ()
  | n + 1, attempt :: rest =>
    match attempt with
    | FetchAttempt.exc =>
        if n = 0 then Except.error () else fetchGo n rest
    | FetchAttempt.ok raw =>
        if raw.isEmpty then Except.ok none
        else
          let df := raw.filterMap id
          if df.length < 2 then Except.ok none
          else Except.ok (some df)

/-- Model of `fetch_ohlcv` as a function of the successive attempt outcomes. -/
def fetch_ohlcv (attempts : List FetchAttempt) : Except Unit (Option (List Candle)) :=
  fetchGo MAX_RETRIES attempts

/-! ### Emitted signals -/

/-- The signal dictionary built on emission (only the fields the claims
below are about; message/timestamp/partial-exit fields are omitted).
The conservative strategy's signal carries no `position_size`. -/
structure Signal where
  profile : String
  signal_type : Direction
  price : ℚ
  position_size : Option PyFloat
  stop_loss : ℚ
  take_profit : ℚ
  leverage : ℚ
deriving DecidableEq, Repr

/-! ### The three strategy checks

Each check is a state transformer on `AlertStates`.  The per-call inputs
collect exactly the external values the Python code reads during the
call: the wall-clock values and the collaborator results (fetch outcome
and enriched frames).  `Except.error` models an exception propagating to
the outer `try/except`, which returns `None` with no state mutation.

Indicator-column access is matched where the source first reads the
column.  The aggressive StochRSI columns and the moderate/conservative
fast/slow EMA columns are matched above the direction guards: every
emitting or flag-clearing path reads them first (the reset blocks test
exactly those EMA values), and the remaining paths return `None` with
the state unchanged either way, so the lifted match is extensionally
faithful.  The moderate `RSI_14` / 4-hour trend-EMA columns and the
conservative `ADX_14` / `RSI_14` columns, by contrast, are read only
inside the direction-guard blocks and never by the reset blocks, so
their matches live inside the guarded blocks: when such a column is
missing and both guards fail, the reset block still runs and can clear
a stale flag. -/

/-- Inputs read during one `check_aggressive_momentum_ignition` call. -/
structure AggInput where
  now : ℚ
  tod : ℚ
  fetched : Except Unit (Option (List Candle))
  enriched : Except Unit AggDf
deriving Repr

/-- Model of `check_aggressive_momentum_ignition` (lines 329–511).  Config:
oversold 10, overbought 90, volume multiplier 2.0, volatility cap 0.018,
window 09:30–16:00 UTC, wick confirmation and divergence detection
enabled, leverage 3. -/
def check_aggressive_momentum_ignition (inp : AggInput) (s : AlertStates) :
    Option Signal × AlertStates :=
  if _check_cross_strategy_risk_controls s = false then (none, s)
  else if _check_time_filter inp.tod 570 960 = false then (none, s)
  else
    match inp.fetched with
    | Except.error _ => (none, s)
    | Except.ok none => (none, s)
    | Except.ok (some raw) =>
      if raw.length < 50 then (none, s)
      else
        match inp.enriched with
        | Except.error _ => (none, s)
        | Except.ok df =>
          if df.rows.length < 2 then (none, s)
          else if _check_volatility_filter df.rows (18/1000) = false then (none, s)
          else
            match df.rows.getLast? with
            | none => (none, s)
            | some current =>
              if _check_wick_confirmation current = false then (none, s)
              else
                match col2 df.stochk with
                | none => (none, s)
                | some prevCurK =>
                  match col2 df.stochd with
                  | none => (none, s)
                  | some prevCurD =>
                  let prevK := prevCurK.1
                  let curK := prevCurK.2
                  let prevD := prevCurD.1
                  let curD := prevCurD.2
                  let k_cross_above := decide (prevK < prevD) && decide (curD < curK)
                  let both_oversold := decide (prevK < 10) && decide (prevD < 10)
                  let k_cross_below := decide (prevD < prevK) && decide (curK < curD)
                  let both_overbought := decide ((90:ℚ) < prevK) && decide ((90:ℚ) < prevD)
                  let volume_confirmed := _check_volume_confirmation df.rows 2
                  let div_bull := _check_rsi_divergence df "bullish" (df.rows.length - 1)
                  let div_bear := _check_rsi_divergence df "bearish" (df.rows.length - 1)
                  if (!s.aggressive.long) && _check_alert_cooldown inp.now s.aggressive
                      && k_cross_above && both_oversold && volume_confirmed && div_bull then
                    let stop_loss := current.close * (992/1000)
                    let position_size := _calculate_position_size
                      "aggressive_momentum_ignition"
                      (PyFloat.val current.close) (PyFloat.val stop_loss)
                    let signal : Signal :=
                      { profile := "Aggressive Momentum Ignition"
                      , signal_type := Direction.long
                      , price := current.close
                      , position_size := some position_size
                      , stop_loss := stop_loss
                      , take_profit := current.close * (1015/1000)
                      , leverage := 3 }
                    (some signal,
                     _update_alert_state s Strat.aggressive_momentum_ignition
                       Direction.long inp.now)
                  else if (!s.aggressive.short) && _check_alert_cooldown inp.now s.aggressive
                      && k_cross_below && both_overbought && volume_confirmed && div_bear then
                    let stop_loss := current.close * (1008/1000)
                    let position_size := _calculate_position_size
                      "aggressive_momentum_ignition"
                      (PyFloat.val current.close) (PyFloat.val stop_loss)
                    let signal : Signal :=
                      { profile := "Aggressive Momentum Ignition"
                      , signal_type := Direction.short
                      , price := current.close
                      , position_size := some position_size
                      , stop_loss := stop_loss
                      , take_profit := current.close * (985/1000)
                      , leverage := 3 }
                    (some signal,
                     _update_alert_state s Strat.aggressive_momentum_ignition
                       Direction.short inp.now)
                  else
                    let s1 :=
                      if s.aggressive.long && !(decide (curD < curK)) then
                        _reset_alert_state s Strat.aggressive_momentum_ignition Direction.long
                      else s
                    let s2 :=
                      if s1.aggressive.short && !(decide (curK < curD)) then
                        _reset_alert_state s1 Strat.aggressive_momentum_ignition Direction.short
                      else s1
                    (none, s2)

/-- Inputs read during one `check_moderate_ema_crossover` call.
`get_multi_timeframe_data` catches per-timeframe exceptions and simply
omits the key, hence plain `Option`s for the two raw fetches. -/
structure ModInput where
  now : ℚ
  utcHour : ℕ
  fetched15 : Option (List Candle)
  fetched4h : Option (List Candle)
  enriched15 : Except Unit ModDf15
  enriched4h : Except Unit ModDf4h
deriving Repr

/-- The flag-reset block at the tail of `check_moderate_ema_crossover`
(lines 685–692): a stale direction flag is cleared using only the
current fast/slow EMA values; no other column is read there. -/
def moderate_reset_block (s : AlertStates) (curFast curSlow : ℚ) :
    Option Signal × AlertStates :=
  let s1 :=
    if s.moderate.long && !(decide (curSlow < curFast)) then
      _reset_alert_state s Strat.moderate_ema_crossover Direction.long
    else s
  let s2 :=
    if s1.moderate.short && !(decide (curFast < curSlow)) then
      _reset_alert_state s1 Strat.moderate_ema_crossover Direction.short
    else s1
  (none, s2)

/-- The bearish-signal block of `check_moderate_ema_crossover` (lines
637–683) followed by the reset block.  The `RSI_14` and 4-hour trend-EMA
columns are read — a missing one raises `KeyError`, reaching the outer
`except` before any reset — only when the guard at line 638 passes; when
that guard fails the reset block runs without them. -/
def moderate_short_block (now : ℚ) (s : AlertStates) (current_15m : Candle)
    (prevFast curFast curSlow : ℚ) (df15 : ModDf15) (df4h : ModDf4h) :
    Option Signal × AlertStates :=
  if (!s.moderate.short) && _check_alert_cooldown now s.moderate then
    match colLast df15.rsi with
    | none => (none, s)
    | some curRsi =>
    match colLast df4h.emaTrend with
    | none => (none, s)
    | some curTrend =>
      let ema_bearish := decide (curFast < curSlow)
      let ema_slope_bearish := decide (curFast < prevFast)
      let rsi_bearish := decide (curRsi < 60)
      let candle_bearish := decide (current_15m.close < current_15m.open_)
      let trend_bearish := decide (current_15m.close < curTrend)
      if ema_bearish && ema_slope_bearish && rsi_bearish
          && candle_bearish && trend_bearish then
        let stop_loss := current_15m.close * (1015/1000)
        let position_size := _calculate_position_size "moderate_ema_crossover"
          (PyFloat.val current_15m.close) (PyFloat.val stop_loss)
        let signal : Signal :=
          { profile := "Moderate EMA Crossover"
          , signal_type := Direction.short
          , price := current_15m.close
          , position_size := some position_size
          , stop_loss := stop_loss
          , take_profit := current_15m.close * (9625/10000)
          , leverage := 2 }
        (some signal,
         _update_alert_state s Strat.moderate_ema_crossover Direction.short now)
      else moderate_reset_block s curFast curSlow
  else moderate_reset_block s curFast curSlow

/-- Model of `check_moderate_ema_crossover` (lines 513–698).  Config: RSI bands
40/60, minimum candle body 0.5 %, required volume spike 1.8×, session
hours 12–20 UTC, leverage 2.  The `RSI_14` and trend-EMA columns are
matched only inside the guarded signal blocks, exactly where the source
reads them; the guard-fail paths reach the reset block without them. -/
def check_moderate_ema_crossover (inp : ModInput) (s : AlertStates) :
    Option Signal × AlertStates :=
  if _check_cross_strategy_risk_controls s = false then (none, s)
  else if _check_session_filter inp.utcHour = false then (none, s)
  else
    match inp.fetched15 with
    | none => (none, s)
    | some raw15 =>
      match inp.fetched4h with
      | none => (none, s)
      | some raw4h =>
      if raw15.length < 50 ∨ raw4h.length < 50 then (none, s)
      else
        match inp.enriched15 with
        | Except.error _ => (none, s)
        | Except.ok df15 =>
        match inp.enriched4h with
        | Except.error _ => (none, s)
        | Except.ok df4h =>
          if df15.rows.length < 2 ∨ df4h.rows.length < 2 then (none, s)
          else
            match df15.rows.getLast? with
            | none => (none, s)
            | some current_15m =>
              match df4h.rows.getLast? with
              | none => (none, s)
              | some _ =>
              if _check_candle_body_confirmation current_15m (5/1000) = false then (none, s)
              else if _check_volume_spike df15.rows (9/5) = false then (none, s)
              else
                match col2 df15.emaFast with
                | none => (none, s)
                | some prevCurFast =>
                match colLast df15.emaSlow with
                | none => (none, s)
                | some curSlow =>
                  let prevFast := prevCurFast.1
                  let curFast := prevCurFast.2
                  if (!s.moderate.long) && _check_alert_cooldown inp.now s.moderate then
                    match colLast df15.rsi with
                    | none => (none, s)
                    | some curRsi =>
                    match colLast df4h.emaTrend with
                    | none => (none, s)
                    | some curTrend =>
                      let ema_bullish := decide (curSlow < curFast)
                      let ema_slope_bullish := decide (prevFast < curFast)
                      let rsi_bullish := decide ((40:ℚ) < curRsi)
                      let candle_bullish := decide (current_15m.open_ < current_15m.close)
                      let trend_bullish := decide (curTrend < current_15m.close)
                      if ema_bullish && ema_slope_bullish && rsi_bullish
                          && candle_bullish && trend_bullish then
                        let stop_loss := current_15m.close * (985/1000)
                        let position_size := _calculate_position_size "moderate_ema_crossover"
                          (PyFloat.val current_15m.close) (PyFloat.val stop_loss)
                        let signal : Signal :=
                          { profile := "Moderate EMA Crossover"
                          , signal_type := Direction.long
                          , price := current_15m.close
                          , position_size := some position_size
                          , stop_loss := stop_loss
                          , take_profit := current_15m.close * (10375/10000)
                          , leverage := 2 }
                        (some signal,
                         _update_alert_state s Strat.moderate_ema_crossover Direction.long inp.now)
                      else
                        moderate_short_block inp.now s current_15m prevFast curFast curSlow df15 df4h
                  else
                    moderate_short_block inp.now s current_15m prevFast curFast curSlow df15 df4h

/-- Inputs read during one `check_conservative_trend_rider` call. -/
structure ConsInput where
  now : ℚ
  fetched : Except Unit (Option (List Candle))
  enriched : Except Unit ConsDf
deriving Repr

/-- The flag-reset block at the tail of `check_conservative_trend_rider`
(lines 839–846): a stale direction flag is cleared using only the
current fast/slow EMA values; no other column is read there. -/
def conservative_reset_block (s : AlertStates) (curFast curSlow : ℚ) :
    Option Signal × AlertStates :=
  let s1 :=
    if s.conservative.long && !(decide (curSlow < curFast)) then
      _reset_alert_state s Strat.conservative_trend_rider Direction.long
    else s
  let s2 :=
    if s1.conservative.short && !(decide (curFast < curSlow)) then
      _reset_alert_state s1 Strat.conservative_trend_rider Direction.short
    else s1
  (none, s2)

/-- The short-signal block of `check_conservative_trend_rider` (lines
802–837) followed by the reset block.  The `ADX_14` and `RSI_14` columns
are read — a missing one raises `KeyError`, reaching the outer `except`
before any reset — only when the guard at line 803 passes; when that
guard fails the reset block runs without them. -/
def conservative_short_block (now : ℚ) (s : AlertStates) (current : Candle)
    (swing_high curFast curSlow : ℚ) (df : ConsDf) :
    Option Signal × AlertStates :=
  if (!s.conservative.short) && _check_alert_cooldown now s.conservative then
    match colLast df.adx with
    | none => (none, s)
    | some curAdx =>
    match colLast df.rsi with
    | none => (none, s)
    | some curRsi =>
      let ema_bearish := decide (curFast < curSlow)
      let price_below_ema := decide (current.close < curSlow)
      let strong_trend := decide ((25:ℚ) < curAdx)
      let good_entry := decide ((40:ℚ) < curRsi)
      if ema_bearish && price_below_ema && strong_trend && good_entry then
        let stop_loss := swing_high
        let risk := stop_loss - current.close
        let take_profit := current.close - 3 * risk
        let signal : Signal :=
          { profile := "Conservative Trend Rider"
          , signal_type := Direction.short
          , price := current.close
          , position_size := none
          , stop_loss := stop_loss
          , take_profit := take_profit
          , leverage := 1 }
        (some signal,
         _update_alert_state s Strat.conservative_trend_rider Direction.short now)
      else conservative_reset_block s curFast curSlow
  else conservative_reset_block s curFast curSlow

/-- Model of `check_conservative_trend_rider` (lines 713–852).  Config: ADX
threshold 25, RSI bands 40/60, leverage 1.  The trailing-stop value the
long branch also computes (2.5× the ATR of the second `_calculate_atr`,
line 854, the definition Python keeps) is a pure arithmetic read that
cannot raise here and is not a `Signal` field the claims mention, so it
is omitted from the emitted record.  The `ADX_14` and `RSI_14` columns
are matched only inside the guarded signal blocks, exactly where the
source reads them; the guard-fail paths reach the reset block without
them. -/
def check_conservative_trend_rider (inp : ConsInput) (s : AlertStates) :
    Option Signal × AlertStates :=
  if _check_cross_strategy_risk_controls s = false then (none, s)
  else
    match inp.fetched with
    | Except.error _ => (none, s)
    | Except.ok none => (none, s)
    | Except.ok (some raw) =>
      if raw.length < 250 then (none, s)
      else
        match inp.enriched with
        | Except.error _ => (none, s)
        | Except.ok df =>
          if df.rows.length < 3 then (none, s)
          else
            match df.rows.getLast? with
            | none => (none, s)
            | some current =>
            match listMin (lastN 5 (df.rows.map Candle.low)) with
            | none => (none, s)
            | some swing_low =>
            match listMax (lastN 5 (df.rows.map Candle.high)) with
            | none => (none, s)
            | some swing_high =>
              match colLast df.emaFast with
              | none => (none, s)
              | some curFast =>
              match colLast df.emaSlow with
              | none => (none, s)
              | some curSlow =>
                if (!s.conservative.long) && _check_alert_cooldown inp.now s.conservative then
                  match colLast df.adx with
                  | none => (none, s)
                  | some curAdx =>
                  match colLast df.rsi with
                  | none => (none, s)
                  | some curRsi =>
                    let ema_bullish := decide (curSlow < curFast)
                    let price_above_ema := decide (curSlow < current.close)
                    let strong_trend := decide ((25:ℚ) < curAdx)
                    let good_entry := decide (curRsi < 60)
                    if ema_bullish && price_above_ema && strong_trend && good_entry then
                      let stop_loss := swing_low
                      let risk := current.close - stop_loss
                      let take_profit := current.close + 3 * risk
                      let signal : Signal :=
                        { profile := "Conservative Trend Rider"
                        , signal_type := Direction.long
                        , price := current.close
                        , position_size := none
                        , stop_loss := stop_loss
                        , take_profit := take_profit
                        , leverage := 1 }
                      (some signal,
                       _update_alert_state s Strat.conservative_trend_rider Direction.long inp.now)
                    else
                      conservative_short_block inp.now s current swing_high curFast curSlow df
                else
                  conservative_short_block inp.now s current swing_high curFast curSlow df

/-! ### Engine steps and traces -/

/-- One strategy-check call together with the external inputs it reads. -/
inductive Step
  | agg (inp : AggInput)
  | mod (inp : ModInput)
  | cons (inp : ConsInput)
deriving Repr

/-- The strategy a step checks. -/
def stratOf : Step → Strat
  | Step.agg _ => Strat.aggressive_momentum_ignition
  | Step.mod _ => Strat.moderate_ema_crossover
  | Step.cons _ => Strat.conservative_trend_rider

/-- The wall-clock time (`datetime.now()`) a step observes. -/
def stepNow : Step → ℚ
  | Step.agg inp => inp.now
  | Step.mod inp => inp.now
  | Step.cons inp => inp.now

/-- Execute one strategy-check call. -/
def stepEngine (s : AlertStates) : Step → Option Signal × AlertStates
  | Step.agg inp => check_aggressive_momentum_ignition inp s
  | Step.mod inp => check_moderate_ema_crossover inp s
  | Step.cons inp => check_conservative_trend_rider inp s

/-- The state after one call. -/
def stepState (s : AlertStates) (st : Step) : AlertStates := (stepEngine s st).2

/-- The state after a sequence of calls. -/
def execTrace (s : AlertStates) (ts : List Step) : AlertStates :=
  ts.foldl stepState s

/-- The emissions (one `Option Signal` per call) of a sequence of calls. -/
def runOutputs : AlertStates → List Step → List (Option Signal)
  | _, [] => []
  | s, st :: rest => (stepEngine s st).1 :: runOutputs (stepState s st) rest

/-! ### Predicates the claims quantify over -/

/-- Mutual exclusion of the two direction flags (spec §3, §8). -/
def mutualExclusion (s : AlertStates) : Prop :=
  ∀ S : Strat, (s.get S).long = false ∨ (s.get S).short = false

/-- The precondition of the abstention claim: the enriched table(s) a
step would evaluate have fewer than 2 rows, or are missing one of the
derived indicator columns the rule's trigger logic reads. -/
def tableBad : Step → Prop
  | Step.agg inp => ∀ df, inp.enriched = Except.ok df →
      df.rows.length < 2 ∨ df.stochk = none ∨ df.stochd = none
  | Step.mod inp => ∀ df15 df4h,
      inp.enriched15 = Except.ok df15 → inp.enriched4h = Except.ok df4h →
      df15.rows.length < 2 ∨ df4h.rows.length < 2 ∨ df15.emaFast = none ∨
      df15.emaSlow = none ∨ df15.rsi = none ∨ df4h.emaTrend = none
  | Step.cons inp => ∀ df, inp.enriched = Except.ok df →
      df.rows.length < 2 ∨ df.emaFast = none ∨ df.emaSlow = none ∨
      df.adx = none ∨ df.rsi = none

/-- What a single strategy-check call does to the alert-state
dictionary: other strategies' entries are untouched; a `None` outcome
preserves the strategy's `last_alert_time` and its flag mutual
exclusion; an emission stamps `last_alert_time` with the call's clock,
presupposes the cooldown check passed, and leaves mutually exclusive
flags. -/
def StepFacts (S : Strat) (now : ℚ) (s : AlertStates) (o : Option Signal)
    (s2 : AlertStates) : Prop :=
  (∀ T : Strat, T ≠ S → s2.get T = s.get T) ∧
  (o = none → (s2.get S).last_alert_time = (s.get S).last_alert_time ∧
     ((s.get S).long = false ∨ (s.get S).short = false →
      (s2.get S).long = false ∨ (s2.get S).short = false)) ∧
  (∀ g, o = some g → (s2.get S).last_alert_time = some now ∧
     _check_alert_cooldown now (s.get S) = true ∧
     ((s2.get S).long = false ∨ (s2.get S).short = false))

/-- What a strategy-check call on a deficient table does to the
alert-state dictionary: no signal is emitted, other strategies' entries
are untouched, the strategy's `last_alert_time` is preserved, and no
direction flag is ever SET (a flag true afterwards was already true
before — a stale flag may still be cleared by the reset block). -/
def AbstainFacts (S : Strat) (s : AlertStates) (o : Option Signal)
    (s2 : AlertStates) : Prop :=
  o = none ∧
  (∀ T : Strat, T ≠ S → s2.get T = s.get T) ∧
  (s2.get S).last_alert_time = (s.get S).last_alert_time ∧
  ((s2.get S).long = true → (s.get S).long = true) ∧
  ((s2.get S).short = true → (s.get S).short = true)

/-! ### Concrete inputs used by the witness theorems -/

/-- A quiet candle: range 1.5, unit volume. -/
def flatCandle : Candle :=
  { open_ := 100, high := 201/2, low := 99, close := 100, volume := 1 }

/-- A bullish trigger candle: long lower wick, volume spike. -/
def bullCandle : Candle :=
  { open_ := 100, high := 401/4, low := 499/5, close := 501/5, volume := 100 }

/-- A bearish trigger candle: long upper wick, volume spike. -/
def bearCandle : Candle :=
  { open_ := 501/5, high := 2009/20, low := 1999/20, close := 100, volume := 100 }

/-- A frame of 21 enriched rows ending in the bullish trigger candle. -/
def aggBullRows : List Candle := List.replicate 20 flatCandle ++ [bullCandle]

/-- A frame of 21 enriched rows ending in the bearish trigger candle. -/
def aggBearRows : List Candle := List.replicate 20 flatCandle ++ [bearCandle]

/-- An aggressive input whose every gate passes and whose StochRSI
history crosses up from the oversold zone; the `RSI_11` column is absent
(as on the live path), so the divergence filter passes by exception. -/
def aggLongInput (now : ℚ) : AggInput :=
  { now := now
  , tod := 600
  , fetched := Except.ok (some (List.replicate 50 flatCandle))
  , enriched := Except.ok
      { rows := aggBullRows
      , stochk := some (List.replicate 19 (0:ℚ) ++ [5, 12])
      , stochd := some (List.replicate 19 (0:ℚ) ++ [8, 9])
      , rsi11 := none } }

/-- An aggressive input that emits a short signal (cross down from the
overbought zone). -/
def aggShortInput (now : ℚ) : AggInput :=
  { now := now
  , tod := 600
  , fetched := Except.ok (some (List.replicate 50 flatCandle))
  , enriched := Except.ok
      { rows := aggBearRows
      , stochk := some (List.replicate 19 (0:ℚ) ++ [95, 80])
      , stochd := some (List.replicate 19 (0:ℚ) ++ [92, 85])
      , rsi11 := none } }

/-- An aggressive input that emits nothing and clears a stale long flag:
%K sits below %D, with no overbought history. -/
def aggResetInput (now : ℚ) : AggInput :=
  { now := now
  , tod := 600
  , fetched := Except.ok (some (List.replicate 50 flatCandle))
  , enriched := Except.ok
      { rows := aggBullRows
      , stochk := some (List.replicate 19 (0:ℚ) ++ [0, 1])
      , stochd := some (List.replicate 19 (0:ℚ) ++ [0, 2])
      , rsi11 := none } }

/-- The long signal the aggressive strategy emits on `aggLongInput`. -/
def aggLongSig : Signal :=
  { profile := "Aggressive Momentum Ignition"
  , signal_type := Direction.long
  , price := 501/5
  , position_size := some (PyFloat.val (25000/501))
  , stop_loss := (501/5) * (992/1000)
  , take_profit := (501/5) * (1015/1000)
  , leverage := 3 }

/-- The short signal the aggressive strategy emits on `aggShortInput`. -/
def aggShortSig : Signal :=
  { profile := "Aggressive Momentum Ignition"
  , signal_type := Direction.short
  , price := 100
  , position_size := some (PyFloat.val 50)
  , stop_loss := 100 * (1008/1000)
  , take_profit := 100 * (985/1000)
  , leverage := 3 }

/-- A declining candle used to build a lower-low price window. -/
def lowCandle : Candle :=
  { open_ := 199/2, high := 499/5, low := 99, close := 199/2, volume := 1 }

/-- Three aggressive calls: a long at t=0, a flag-clearing call at t=50,
and a second long at t=100. -/
def c2Trace : List Step :=
  [Step.agg (aggLongInput 0), Step.agg (aggResetInput 50), Step.agg (aggLongInput 100)]

/-- Two aggressive calls: a long at t=0 and a short at t=50. -/
def c10Trace : List Step :=
  [Step.agg (aggLongInput 0), Step.agg (aggShortInput 50)]

/-- An aggressive input whose enriched frame is empty and lacks the
StochRSI columns. -/
def c4Input : AggInput :=
  { now := 0
  , tod := 600
  , fetched := Except.ok (some (List.replicate 50 flatCandle))
  , enriched := Except.ok { rows := [], stochk := none, stochd := none, rsi11 := none } }

/-- A state in which two strategies hold an active flag. -/
def c5State : AlertStates :=
  { aggressive := { long := true, short := false, last_alert_time := some 0 }
  , moderate := { long := false, short := true, last_alert_time := some 0 }
  , conservative := { long := false, short := false, last_alert_time := none } }

/-- A conservative call input (content irrelevant: the cross-strategy
gate fires first). -/
def c5Input : ConsInput :=
  { now := 0
  , fetched := Except.error ()
  , enriched := Except.ok { rows := [], emaFast := none, emaSlow := none, adx := none, rsi := none } }

/-- The 15-minute trigger candle of the moderate witness. -/
def modBullCandle : Candle :=
  { open_ := 100, high := 111, low := 199/2, close := 110, volume := 100 }

/-- A moderate input whose every gate and long condition passes. -/
def c6Input : ModInput :=
  { now := 0
  , utcHour := 13
  , fetched15 := some (List.replicate 50 flatCandle)
  , fetched4h := some (List.replicate 50 flatCandle)
  , enriched15 := Except.ok
      { rows := List.replicate 19 flatCandle ++ [modBullCandle]
      , emaFast := some (List.replicate 18 (0:ℚ) ++ [104, 105])
      , emaSlow := some (List.replicate 19 (0:ℚ) ++ [100])
      , rsi := some (List.replicate 19 (0:ℚ) ++ [50]) }
  , enriched4h := Except.ok
      { rows := [flatCandle, flatCandle]
      , emaTrend := some [0, 90] } }

/-- The long signal the moderate strategy emits on `c6Input`. -/
def c6Sig : Signal :=
  { profile := "Moderate EMA Crossover"
  , signal_type := Direction.long
  , price := 110
  , position_size := some (PyFloat.val (400/11))
  , stop_loss := 110 * (985/1000)
  , take_profit := 110 * (10375/10000)
  , leverage := 2 }

/-- A state whose moderate long flag is set, with an alert stamped at
t = 0 (so the cooldown is still active shortly after). -/
def c4CexState : AlertStates :=
  { aggressive := { long := false, short := false, last_alert_time := none }
  , moderate := { long := true, short := false, last_alert_time := some 0 }
  , conservative := { long := false, short := false, last_alert_time := none } }

/-- The moderate 15-minute frame of the C4 counterexample: both EMA
columns present with the fast EMA no longer above the slow EMA, the
`RSI_14` column missing; every shared gate passes on its rows. -/
def c4CexDf15 : ModDf15 :=
  { rows := List.replicate 19 flatCandle ++ [modBullCandle]
  , emaFast := some (List.replicate 18 (0:ℚ) ++ [100, 100])
  , emaSlow := some (List.replicate 19 (0:ℚ) ++ [100])
  , rsi := none }

/-- The moderate 4-hour frame of the C4 counterexample (its trend-EMA
column is never reached). -/
def c4CexDf4h : ModDf4h :=
  { rows := [flatCandle, flatCandle]
  , emaTrend := none }

/-- A moderate call at t = 10 against `c4CexDf15`: the cooldown is
active, so both direction guards fail and the reset block runs. -/
def c4CexInput : ModInput :=
  { now := 10
  , utcHour := 13
  , fetched15 := some (List.replicate 50 flatCandle)
  , fetched4h := some (List.replicate 50 flatCandle)
  , enriched15 := Except.ok c4CexDf15
  , enriched4h := Except.ok c4CexDf4h }

/-- An aggressive input whose fetch raised on all attempts. -/
def c7Input : AggInput :=
  { now := 0
  , tod := 600
  , fetched := Except.error ()
  , enriched := Except.ok { rows := [], stochk := none, stochd := none, rsi11 := none } }

/-- A 20-row enriched frame, flat except for the trigger candle, with a
constant `RSI_11` column: too short for the divergence window, so the
divergence filter passes without any divergence existing. -/
def c8CexDf : AggDf :=
  { rows := List.replicate 19 flatCandle ++ [bullCandle]
  , stochk := some (List.replicate 18 (0:ℚ) ++ [5, 12])
  , stochd := some (List.replicate 18 (0:ℚ) ++ [8, 9])
  , rsi11 := some (List.replicate 20 (50:ℚ)) }

/-- The aggressive call around `c8CexDf`. -/
def c8CexInput : AggInput :=
  { now := 0
  , tod := 600
  , fetched := Except.ok (some (List.replicate 50 flatCandle))
  , enriched := Except.ok c8CexDf }

/-- A 21-row enriched frame whose price makes a lower low in the recent
10 candles while `RSI_11` makes a higher low: genuine bullish
divergence. -/
def c8WitDf : AggDf :=
  { rows := List.replicate 11 flatCandle ++ List.replicate 9 lowCandle ++ [bullCandle]
  , stochk := some (List.replicate 19 (0:ℚ) ++ [5, 12])
  , stochd := some (List.replicate 19 (0:ℚ) ++ [8, 9])
  , rsi11 := some (List.replicate 11 (30:ℚ) ++ List.replicate 10 (35:ℚ)) }

/-- The aggressive call around `c8WitDf`. -/
def c8WitInput : AggInput :=
  { now := 0
  , tod := 600
  , fetched := Except.ok (some (List.replicate 50 flatCandle))
  , enriched := Except.ok c8WitDf }

/-- A frame of 20 rows whose final volume is exactly the rolling-20 average times
the multiplier 2: `avg = (19 + 19/9)/20 = 19/18` and `2 * 19/18 = 19/9`. -/
def c9EqRows : List Candle :=
  List.replicate 19 flatCandle ++
    [{ open_ := 100, high := 201/2, low := 99, close := 100, volume := 19/9 }]

/-! ## Theorems -/

/- The Batteries `Rat` arithmetic operations are `@[irreducible]`, which
blocks `decide` from evaluating concrete rational arithmetic during
elaboration; re-allow unfolding them locally (the kernel ignores
reducibility attributes, so this does not change what is provable). -/
attribute [local semireducible] Rat.mul Rat.inv Rat.add Rat.sub

/-- Python `min` of two finite floats is the rational `min`. -/
lemma pymin_val (a b : ℚ) :
    PyFloat.pymin (PyFloat.val a) (PyFloat.val b) = PyFloat.val (min a b) := by
  unfold PyFloat.pymin PyFloat.flt
  rcases lt_or_le b a with h | h
  · simp [h, min_eq_right h.le]
  · simp [not_lt.mpr h, min_eq_left h]

/-- Every capital-allocation fraction (including the `.get` default) is
positive. -/
lemma capital_allocation_pos (strategy_name : String) :
    0 < CAPITAL_ALLOCATION_get strategy_name := by
  unfold CAPITAL_ALLOCATION_get
  split_ifs <;> norm_num

/-- Every leverage cap (including the `.get` default) is nonnegative. -/
lemma leverage_caps_nonneg (strategy_name : String) :
    0 ≤ leverage_caps_get strategy_name := by
  unfold leverage_caps_get
  split_ifs <;> norm_num

/-- C3 (amended): for finite entry and stop prices the position size is a
finite value in `[0, strategyCapital × 10]`, and an entry equal to the
stop yields exactly 0.  (The claim's further assertion that NaN inputs
also degrade to 0 or a capped magnitude is refuted by
`position_size_nan_propagates` below: a NaN entry propagates to a NaN
result through Python's `min`.) -/
theorem position_size_bounded (strategy_name : String) (entry stop : ℚ) :
    ((_calculate_position_size strategy_name (PyFloat.val entry) (PyFloat.val stop)).finite = true ∧
     0 ≤ (_calculate_position_size strategy_name (PyFloat.val entry) (PyFloat.val stop)).toRat ∧
     (_calculate_position_size strategy_name (PyFloat.val entry) (PyFloat.val stop)).toRat ≤
       10000 * CAPITAL_ALLOCATION_get strategy_name * 10) ∧
    (entry = stop →
      _calculate_position_size strategy_name (PyFloat.val entry) (PyFloat.val stop) =
        PyFloat.val 0) := by
  have hcappos := capital_allocation_pos strategy_name
  have hlev := leverage_caps_nonneg strategy_name
  by_cases h : |entry - stop| = 0
  · have hzero : _calculate_position_size strategy_name (PyFloat.val entry) (PyFloat.val stop) =
        PyFloat.val 0 := by
      unfold _calculate_position_size
      simp [PyFloat.sub, PyFloat.fabs, PyFloat.eqZero, h]
    rw [hzero]
    exact ⟨⟨rfl, le_refl _, by positivity⟩, fun _ => rfl⟩
  · have habs : 0 < |entry - stop| := lt_of_le_of_ne (abs_nonneg _) (Ne.symm h)
    have hres : _calculate_position_size strategy_name (PyFloat.val entry) (PyFloat.val stop) =
        PyFloat.val (min
          (min (10000 * CAPITAL_ALLOCATION_get strategy_name * (2/100) / |entry - stop|)
            (10000 * CAPITAL_ALLOCATION_get strategy_name * leverage_caps_get strategy_name))
          (10000 * CAPITAL_ALLOCATION_get strategy_name * 10)) := by
      unfold _calculate_position_size
      simp only [max_risk_per_trade, PyFloat.sub, PyFloat.fabs, PyFloat.eqZero, PyFloat.divq,
        h, decide_eq_true_eq, if_neg, Bool.false_eq_true, not_false_eq_true, pymin_val]
    rw [hres]
    constructor
    · refine ⟨rfl, ?_, ?_⟩
      · simp only [PyFloat.toRat]
        have h1 : 0 ≤ 10000 * CAPITAL_ALLOCATION_get strategy_name * (2 / 100) / |entry - stop| := by
          positivity
        have h2 : 0 ≤ 10000 * CAPITAL_ALLOCATION_get strategy_name * leverage_caps_get strategy_name := by
          positivity
        have h3 : 0 ≤ 10000 * CAPITAL_ALLOCATION_get strategy_name * 10 := le_of_lt (by positivity)
        exact le_min (le_min h1 h2) h3
      · simp only [PyFloat.toRat]
        exact min_le_right _ _
    · intro he
      exact absurd (by rw [he, sub_self, abs_zero]) h

/-- C3 counterexample: a NaN entry price makes the position size NaN —
the value propagates into the result instead of degrading to 0 or a
capped magnitude (`min(nan, cap) = nan` in Python). -/
theorem position_size_nan_propagates :
    _calculate_position_size "aggressive_momentum_ignition" PyFloat.nan (PyFloat.val 100) =
      PyFloat.nan := rfl

/-- Witness for `position_size_bounded` at concrete inputs. -/
theorem position_size_bounded_witness :
    _calculate_position_size "aggressive_momentum_ignition" (PyFloat.val 100) (PyFloat.val 100) =
      PyFloat.val 0 :=
  (position_size_bounded "aggressive_momentum_ignition" 100 100).2 rfl

/-- C5: with at least two strategies holding an active flag, every
strategy-check call is skipped by the cross-strategy risk gate: it
returns `None` and mutates nothing. -/
theorem cross_strategy_cap (st : Step) (s : AlertStates)
    (h : 2 ≤ activeStrategyCount s) : stepEngine s st = (none, s) := by
  have hg : _check_cross_strategy_risk_controls s = false := by
    unfold _check_cross_strategy_risk_controls
    simp [h]
  cases st with
  | agg inp =>
    show check_aggressive_momentum_ignition inp s = (none, s)
    unfold check_aggressive_momentum_ignition
    rw [if_pos hg]
  | mod inp =>
    show check_moderate_ema_crossover inp s = (none, s)
    unfold check_moderate_ema_crossover
    rw [if_pos hg]
  | cons inp =>
    show check_conservative_trend_rider inp s = (none, s)
    unfold check_conservative_trend_rider
    rw [if_pos hg]

/-- Witness for `cross_strategy_cap`. -/
theorem cross_strategy_cap_witness :
    2 ≤ activeStrategyCount c5State ∧
      stepEngine c5State (Step.cons c5Input) = (none, c5State) :=
  ⟨by decide, cross_strategy_cap (Step.cons c5Input) c5State (by decide)⟩

/-- The retry loop of `fetch_ohlcv` ends in a re-raise when every
attempt raises. -/
lemma fetchGo_all_exc (n : ℕ) (attempts : List FetchAttempt)
    (h : ∀ a ∈ attempts, a = FetchAttempt.exc) :
    fetchGo n attempts = Except.error () := by
  induction n generalizing attempts with
  | zero => rfl
  | succ n ih =>
    cases attempts with
    | nil => rfl
    | cons a rest =>
      have ha : a = FetchAttempt.exc := h a (List.mem_cons_self a rest)
      subst ha
      show (if n = 0 then Except.error () else fetchGo n rest) = Except.error ()
      rcases Nat.eq_zero_or_pos n with h0 | h0
      · simp [h0]
      · rw [if_neg (Nat.pos_iff_ne_zero.mp h0)]
        exact ih rest fun a hm => h a (List.mem_cons_of_mem _ hm)

/-- C7 (amended): when every attempt fails, `fetch_ohlcv` RE-RAISES the
exception after `MAX_RETRIES` attempts (as its docstring states) rather
than returning `None`; the strategy-check caller catches the exception
and returns `None` without touching any alert state, so the engine still
skips the cycle gracefully. -/
theorem fetch_failure_raises_and_engine_skips :
    (∀ attempts : List FetchAttempt,
       (∀ a ∈ attempts, a = FetchAttempt.exc) →
       fetch_ohlcv attempts = Except.error ()) ∧
    (∀ (inp : AggInput) (s : AlertStates), inp.fetched = Except.error () →
       check_aggressive_momentum_ignition inp s = (none, s)) := by
  constructor
  · intro attempts h
    exact fetchGo_all_exc MAX_RETRIES attempts h
  · intro inp s h
    unfold check_aggressive_momentum_ignition
    rw [h]
    by_cases h1 : _check_cross_strategy_risk_controls s = false
    · rw [if_pos h1]
    · rw [if_neg h1]
      by_cases h2 : _check_time_filter inp.tod 570 960 = false
      · rw [if_pos h2]
      · rw [if_neg h2]

/-- C7 counterexample: three raising attempts make `fetch_ohlcv` raise
(`Except.error`), not return `None`, refuting the claim that the fetch
operation returns None/empty to the caller rather than raising. -/
theorem fetch_failure_cex :
    fetch_ohlcv (List.replicate MAX_RETRIES FetchAttempt.exc) = Except.error () := rfl

/-- Witness for `fetch_failure_raises_and_engine_skips`. -/
theorem fetch_failure_witness :
    fetch_ohlcv [FetchAttempt.exc, FetchAttempt.exc, FetchAttempt.exc] = Except.error () ∧
      check_aggressive_momentum_ignition c7Input alertStatesInit = (none, alertStatesInit) :=
  ⟨fetch_failure_raises_and_engine_skips.1 _ (by intro a ha; simpa using ha),
   fetch_failure_raises_and_engine_skips.2 c7Input alertStatesInit rfl⟩

/-- C9 (amended): whenever the frame is nonempty and the rolling-20
average volume is defined, the volume confirmation holds iff the current
volume STRICTLY exceeds the average times the multiplier; equality does
not satisfy it. -/
theorem volume_confirmation_strict (rows : List Candle) (volume_multiplier : ℚ)
    (current : Candle) (avg : ℚ)
    (hlast : rows.getLast? = some current)
    (havg : rollingMeanLast 20 (rows.map Candle.volume) = some avg) :
    (_check_volume_confirmation rows volume_multiplier = true ↔
      avg * volume_multiplier < current.volume) := by
  unfold _check_volume_confirmation
  rw [hlast, havg]
  simp

/-- C9 counterexample: a frame whose current volume EQUALS the
rolling-20 average times the multiplier 2 fails the volume confirmation,
refuting the claimed `≥` semantics. -/
theorem volume_confirmation_eq_cex :
    _check_volume_confirmation c9EqRows 2 = false ∧
      (c9EqRows.getLast?).map Candle.volume = some (19/9) ∧
      rollingMeanLast 20 (c9EqRows.map Candle.volume) = some (19/18) ∧
      (19/9 : ℚ) = (19/18) * 2 := by
  refine ⟨by decide, by decide, by decide, by norm_num⟩

/-- Witness for `volume_confirmation_strict`. -/
theorem volume_confirmation_strict_witness :
    _check_volume_confirmation aggBullRows 2 = true ∧
      rollingMeanLast 20 (aggBullRows.map Candle.volume) = some (119/20) :=
  ⟨(volume_confirmation_strict aggBullRows 2 bullCandle (119/20) (by decide) (by decide)).mpr
     (by norm_num [bullCandle]),
   by decide⟩

/-! ### Characterization of one strategy-check call -/

lemma get_set_self (s : AlertStates) (S : Strat) (st : AlertState) :
    (s.set S st).get S = st := by
  cases S <;> rfl

lemma get_set_ne (s : AlertStates) (S T : Strat) (st : AlertState) (h : T ≠ S) :
    (s.set S st).get T = s.get T := by
  cases S <;> cases T <;> first | rfl | exact absurd rfl h

lemma ite_eq_or {α : Sort _} (c : Prop) [Decidable c] (X Y : α) :
    (if c then X else Y) = X ∨ (if c then X else Y) = Y := by
  by_cases h : c
  · exact Or.inl (if_pos h)
  · exact Or.inr (if_neg h)

lemma stepFacts_none_self (S : Strat) (now : ℚ) (s : AlertStates) :
    StepFacts S now s none s :=
  ⟨fun _ _ => rfl, fun _ => ⟨rfl, id⟩, fun _ hg => nomatch hg⟩

lemma facts_of_none (S : Strat) (now : ℚ) (s : AlertStates) (o : Option Signal)
    (s2 : AlertStates) (h : ((none : Option Signal), s) = (o, s2)) :
    StepFacts S now s o s2 := by
  injection h with h1 h2
  subst h1
  subst h2
  exact stepFacts_none_self S now s

lemma stepFacts_update (S : Strat) (now : ℚ) (s : AlertStates) (dir : Direction)
    (hcool : _check_alert_cooldown now (s.get S) = true) (g : Signal) :
    StepFacts S now s (some g) (_update_alert_state s S dir now) := by
  cases dir with
  | long =>
    refine ⟨fun T hT => get_set_ne s S T _ hT, ?_, ?_⟩
    · intro hn
      exact absurd hn (by simp)
    · intro g2 _
      rw [show _update_alert_state s S Direction.long now =
        s.set S { long := true, short := false, last_alert_time := some now } from rfl]
      rw [get_set_self]
      exact ⟨rfl, hcool, Or.inr rfl⟩
  | short =>
    refine ⟨fun T hT => get_set_ne s S T _ hT, ?_, ?_⟩
    · intro hn
      exact absurd hn (by simp)
    · intro g2 _
      rw [show _update_alert_state s S Direction.short now =
        s.set S { long := false, short := true, last_alert_time := some now } from rfl]
      rw [get_set_self]
      exact ⟨rfl, hcool, Or.inl rfl⟩

lemma reset_get_ne (s : AlertStates) (S T : Strat) (d : Direction) (h : T ≠ S) :
    (_reset_alert_state s S d).get T = s.get T := by
  cases d <;> exact get_set_ne s S T _ h

lemma reset_get_self_last (s : AlertStates) (S : Strat) (d : Direction) :
    ((_reset_alert_state s S d).get S).last_alert_time = (s.get S).last_alert_time := by
  cases d with
  | long =>
    rw [show _reset_alert_state s S Direction.long =
      s.set S { s.get S with long := false } from rfl, get_set_self]
  | short =>
    rw [show _reset_alert_state s S Direction.short =
      s.set S { s.get S with short := false } from rfl, get_set_self]

lemma stepFacts_resets (S : Strat) (now : ℚ) (s s1 s2 : AlertStates)
    (h1 : s1 = _reset_alert_state s S Direction.long ∨ s1 = s)
    (h2 : s2 = _reset_alert_state s1 S Direction.short ∨ s2 = s1) :
    StepFacts S now s none s2 := by
  refine ⟨?_, fun _ => ⟨?_, ?_⟩, fun _ hg => nomatch hg⟩
  · intro T hT
    rcases h2 with rfl | rfl <;> rcases h1 with rfl | rfl <;>
      simp only [reset_get_ne _ _ _ _ hT]
  · rcases h2 with rfl | rfl <;> rcases h1 with rfl | rfl <;>
      simp only [reset_get_self_last]
  · intro hpre
    rcases h2 with rfl | rfl
    · refine Or.inr ?_
      rw [show _reset_alert_state s1 S Direction.short =
        s1.set S { s1.get S with short := false } from rfl, get_set_self]
    · rcases h1 with rfl | rfl
      · refine Or.inl ?_
        rw [show _reset_alert_state s S Direction.long =
          s.set S { s.get S with long := false } from rfl, get_set_self]
      · exact hpre

lemma reset_long_get (s : AlertStates) (S : Strat) :
    (_reset_alert_state s S Direction.long).get S = { s.get S with long := false } := by
  rw [show _reset_alert_state s S Direction.long =
    s.set S { s.get S with long := false } from rfl, get_set_self]

lemma reset_short_get (s : AlertStates) (S : Strat) :
    (_reset_alert_state s S Direction.short).get S = { s.get S with short := false } := by
  rw [show _reset_alert_state s S Direction.short =
    s.set S { s.get S with short := false } from rfl, get_set_self]

lemma moderate_reset_block_facts (now : ℚ) (s : AlertStates) (cf cs : ℚ)
    (o : Option Signal) (s2 : AlertStates)
    (h : moderate_reset_block s cf cs = (o, s2)) :
    StepFacts Strat.moderate_ema_crossover now s o s2 := by
  unfold moderate_reset_block at h
  simp only [] at h
  injection h with ho hs
  subst ho
  subst hs
  exact stepFacts_resets _ now s _ _ (ite_eq_or _ _ _) (ite_eq_or _ _ _)

lemma moderate_short_block_facts (now : ℚ) (s : AlertStates) (c : Candle)
    (pf cf cs : ℚ) (df15 : ModDf15) (df4h : ModDf4h)
    (o : Option Signal) (s2 : AlertStates)
    (h : moderate_short_block now s c pf cf cs df15 df4h = (o, s2)) :
    StepFacts Strat.moderate_ema_crossover now s o s2 := by
  unfold moderate_short_block at h
  by_cases hg : ((!s.moderate.short) && _check_alert_cooldown now s.moderate) = true
  · rw [if_pos hg] at h
    cases hR : colLast df15.rsi with
    | none =>
      rw [hR] at h
      simp only [] at h
      exact facts_of_none _ _ _ _ _ h
    | some cr =>
      rw [hR] at h
      simp only [] at h
      cases hT : colLast df4h.emaTrend with
      | none =>
        rw [hT] at h
        simp only [] at h
        exact facts_of_none _ _ _ _ _ h
      | some ct =>
        rw [hT] at h
        simp only [] at h
        split at h
        · injection h with ho hs
          subst ho
          subst hs
          simp only [Bool.and_eq_true] at hg
          exact stepFacts_update _ _ _ _ hg.2 _
        · exact moderate_reset_block_facts now s cf cs o s2 h
  · rw [if_neg hg] at h
    exact moderate_reset_block_facts now s cf cs o s2 h

lemma conservative_reset_block_facts (now : ℚ) (s : AlertStates) (cf cs : ℚ)
    (o : Option Signal) (s2 : AlertStates)
    (h : conservative_reset_block s cf cs = (o, s2)) :
    StepFacts Strat.conservative_trend_rider now s o s2 := by
  unfold conservative_reset_block at h
  simp only [] at h
  injection h with ho hs
  subst ho
  subst hs
  exact stepFacts_resets _ now s _ _ (ite_eq_or _ _ _) (ite_eq_or _ _ _)

lemma conservative_short_block_facts (now : ℚ) (s : AlertStates) (c : Candle)
    (swh cf cs : ℚ) (df : ConsDf)
    (o : Option Signal) (s2 : AlertStates)
    (h : conservative_short_block now s c swh cf cs df = (o, s2)) :
    StepFacts Strat.conservative_trend_rider now s o s2 := by
  unfold conservative_short_block at h
  by_cases hg : ((!s.conservative.short) && _check_alert_cooldown now s.conservative) = true
  · rw [if_pos hg] at h
    cases hA : colLast df.adx with
    | none =>
      rw [hA] at h
      simp only [] at h
      exact facts_of_none _ _ _ _ _ h
    | some ca =>
      rw [hA] at h
      simp only [] at h
      cases hR : colLast df.rsi with
      | none =>
        rw [hR] at h
        simp only [] at h
        exact facts_of_none _ _ _ _ _ h
      | some cr =>
        rw [hR] at h
        simp only [] at h
        split at h
        · injection h with ho hs
          subst ho
          subst hs
          simp only [Bool.and_eq_true] at hg
          exact stepFacts_update _ _ _ _ hg.2 _
        · exact conservative_reset_block_facts now s cf cs o s2 h
  · rw [if_neg hg] at h
    exact conservative_reset_block_facts now s cf cs o s2 h

lemma agg_stepFacts (inp : AggInput) (s : AlertStates) (o : Option Signal)
    (s2 : AlertStates)
    (hcall : check_aggressive_momentum_ignition inp s = (o, s2)) :
    StepFacts Strat.aggressive_momentum_ignition inp.now s o s2 := by
  unfold check_aggressive_momentum_ignition at hcall
  by_cases h1 : _check_cross_strategy_risk_controls s = false
  · rw [if_pos h1] at hcall
    exact facts_of_none _ _ _ _ _ hcall
  rw [if_neg h1] at hcall
  by_cases h2 : _check_time_filter inp.tod 570 960 = false
  · rw [if_pos h2] at hcall
    exact facts_of_none _ _ _ _ _ hcall
  rw [if_neg h2] at hcall
  cases hF : inp.fetched with
  | error u =>
    rw [hF] at hcall
    simp only [] at hcall
    exact facts_of_none _ _ _ _ _ hcall
  | ok fo =>
    rw [hF] at hcall
    cases fo with
    | none =>
      simp only [] at hcall
      exact facts_of_none _ _ _ _ _ hcall
    | some raw =>
      simp only [] at hcall
      by_cases h3 : raw.length < 50
      · rw [if_pos h3] at hcall
        exact facts_of_none _ _ _ _ _ hcall
      rw [if_neg h3] at hcall
      cases hE : inp.enriched with
      | error u =>
        rw [hE] at hcall
        simp only [] at hcall
        exact facts_of_none _ _ _ _ _ hcall
      | ok df =>
        rw [hE] at hcall
        simp only [] at hcall
        by_cases h5 : df.rows.length < 2
        · rw [if_pos h5] at hcall
          exact facts_of_none _ _ _ _ _ hcall
        rw [if_neg h5] at hcall
        by_cases h6 : _check_volatility_filter df.rows (18/1000) = false
        · rw [if_pos h6] at hcall
          exact facts_of_none _ _ _ _ _ hcall
        rw [if_neg h6] at hcall
        cases hL : df.rows.getLast? with
        | none =>
          rw [hL] at hcall
          simp only [] at hcall
          exact facts_of_none _ _ _ _ _ hcall
        | some current =>
          rw [hL] at hcall
          simp only [] at hcall
          by_cases h7 : _check_wick_confirmation current = false
          · rw [if_pos h7] at hcall
            exact facts_of_none _ _ _ _ _ hcall
          rw [if_neg h7] at hcall
          cases hK : col2 df.stochk with
          | none =>
            rw [hK] at hcall
            simp only [] at hcall
            exact facts_of_none _ _ _ _ _ hcall
          | some pk =>
            rw [hK] at hcall
            simp only [] at hcall
            cases hD : col2 df.stochd with
            | none =>
              rw [hD] at hcall
              simp only [] at hcall
              exact facts_of_none _ _ _ _ _ hcall
            | some pd =>
              rw [hD] at hcall
              simp only [] at hcall
              split at hcall
              · next hcond =>
                  injection hcall with ho hs
                  subst ho
                  subst hs
                  simp only [Bool.and_eq_true] at hcond
                  exact stepFacts_update _ _ _ _ hcond.1.1.1.1.2 _
              · split at hcall
                · next hcond =>
                    injection hcall with ho hs
                    subst ho
                    subst hs
                    simp only [Bool.and_eq_true] at hcond
                    exact stepFacts_update _ _ _ _ hcond.1.1.1.1.2 _
                · injection hcall with ho hs
                  subst ho
                  subst hs
                  exact stepFacts_resets _ inp.now s _ _ (ite_eq_or _ _ _) (ite_eq_or _ _ _)

lemma mod_stepFacts (inp : ModInput) (s : AlertStates) (o : Option Signal)
    (s2 : AlertStates)
    (hcall : check_moderate_ema_crossover inp s = (o, s2)) :
    StepFacts Strat.moderate_ema_crossover inp.now s o s2 := by
  unfold check_moderate_ema_crossover at hcall
  by_cases h1 : _check_cross_strategy_risk_controls s = false
  · rw [if_pos h1] at hcall
    exact facts_of_none _ _ _ _ _ hcall
  rw [if_neg h1] at hcall
  by_cases h2 : _check_session_filter inp.utcHour = false
  · rw [if_pos h2] at hcall
    exact facts_of_none _ _ _ _ _ hcall
  rw [if_neg h2] at hcall
  cases hF : inp.fetched15 with
  | none =>
    rw [hF] at hcall
    simp only [] at hcall
    exact facts_of_none _ _ _ _ _ hcall
  | some raw15 =>
    rw [hF] at hcall
    simp only [] at hcall
    cases hF4 : inp.fetched4h with
    | none =>
      rw [hF4] at hcall
      simp only [] at hcall
      exact facts_of_none _ _ _ _ _ hcall
    | some raw4h =>
      rw [hF4] at hcall
      simp only [] at hcall
      by_cases h3 : raw15.length < 50 ∨ raw4h.length < 50
      · rw [if_pos h3] at hcall
        exact facts_of_none _ _ _ _ _ hcall
      rw [if_neg h3] at hcall
      cases hE : inp.enriched15 with
      | error u =>
        rw [hE] at hcall
        simp only [] at hcall
        exact facts_of_none _ _ _ _ _ hcall
      | ok df15 =>
        rw [hE] at hcall
        simp only [] at hcall
        cases hE4 : inp.enriched4h with
        | error u =>
          rw [hE4] at hcall
          simp only [] at hcall
          exact facts_of_none _ _ _ _ _ hcall
        | ok df4h =>
          rw [hE4] at hcall
          simp only [] at hcall
          by_cases h5 : df15.rows.length < 2 ∨ df4h.rows.length < 2
          · rw [if_pos h5] at hcall
            exact facts_of_none _ _ _ _ _ hcall
          rw [if_neg h5] at hcall
          cases hL : df15.rows.getLast? with
          | none =>
            rw [hL] at hcall
            simp only [] at hcall
            exact facts_of_none _ _ _ _ _ hcall
          | some cur15 =>
            rw [hL] at hcall
            simp only [] at hcall
            cases hL4 : df4h.rows.getLast? with
            | none =>
              rw [hL4] at hcall
              simp only [] at hcall
              exact facts_of_none _ _ _ _ _ hcall
            | some cur4 =>
              rw [hL4] at hcall
              simp only [] at hcall
              by_cases h6 : _check_candle_body_confirmation cur15 (5/1000) = false
              · rw [if_pos h6] at hcall
                exact facts_of_none _ _ _ _ _ hcall
              rw [if_neg h6] at hcall
              by_cases h7 : _check_volume_spike df15.rows (9/5) = false
              · rw [if_pos h7] at hcall
                exact facts_of_none _ _ _ _ _ hcall
              rw [if_neg h7] at hcall
              cases hK : col2 df15.emaFast with
              | none =>
                rw [hK] at hcall
                simp only [] at hcall
                exact facts_of_none _ _ _ _ _ hcall
              | some pf =>
                rw [hK] at hcall
                simp only [] at hcall
                cases hS : colLast df15.emaSlow with
                | none =>
                  rw [hS] at hcall
                  simp only [] at hcall
                  exact facts_of_none _ _ _ _ _ hcall
                | some cs =>
                  rw [hS] at hcall
                  simp only [] at hcall
                  by_cases hgl :
                      ((!s.moderate.long) && _check_alert_cooldown inp.now s.moderate) = true
                  · rw [if_pos hgl] at hcall
                    cases hR : colLast df15.rsi with
                    | none =>
                      rw [hR] at hcall
                      simp only [] at hcall
                      exact facts_of_none _ _ _ _ _ hcall
                    | some cr =>
                      rw [hR] at hcall
                      simp only [] at hcall
                      cases hT4 : colLast df4h.emaTrend with
                      | none =>
                        rw [hT4] at hcall
                        simp only [] at hcall
                        exact facts_of_none _ _ _ _ _ hcall
                      | some ct =>
                        rw [hT4] at hcall
                        simp only [] at hcall
                        split at hcall
                        · injection hcall with ho hs
                          subst ho
                          subst hs
                          simp only [Bool.and_eq_true] at hgl
                          exact stepFacts_update _ _ _ _ hgl.2 _
                        · exact moderate_short_block_facts _ _ _ _ _ _ _ _ _ _ hcall
                  · rw [if_neg hgl] at hcall
                    exact moderate_short_block_facts _ _ _ _ _ _ _ _ _ _ hcall

lemma cons_stepFacts (inp : ConsInput) (s : AlertStates) (o : Option Signal)
    (s2 : AlertStates)
    (hcall : check_conservative_trend_rider inp s = (o, s2)) :
    StepFacts Strat.conservative_trend_rider inp.now s o s2 := by
  unfold check_conservative_trend_rider at hcall
  by_cases h1 : _check_cross_strategy_risk_controls s = false
  · rw [if_pos h1] at hcall
    exact facts_of_none _ _ _ _ _ hcall
  rw [if_neg h1] at hcall
  cases hF : inp.fetched with
  | error u =>
    rw [hF] at hcall
    simp only [] at hcall
    exact facts_of_none _ _ _ _ _ hcall
  | ok fo =>
    rw [hF] at hcall
    cases fo with
    | none =>
      simp only [] at hcall
      exact facts_of_none _ _ _ _ _ hcall
    | some raw =>
      simp only [] at hcall
      by_cases h3 : raw.length < 250
      · rw [if_pos h3] at hcall
        exact facts_of_none _ _ _ _ _ hcall
      rw [if_neg h3] at hcall
      cases hE : inp.enriched with
      | error u =>
        rw [hE] at hcall
        simp only [] at hcall
        exact facts_of_none _ _ _ _ _ hcall
      | ok df =>
        rw [hE] at hcall
        simp only [] at hcall
        by_cases h5 : df.rows.length < 3
        · rw [if_pos h5] at hcall
          exact facts_of_none _ _ _ _ _ hcall
        rw [if_neg h5] at hcall
        cases hL : df.rows.getLast? with
        | none =>
          rw [hL] at hcall
          simp only [] at hcall
          exact facts_of_none _ _ _ _ _ hcall
        | some current =>
          rw [hL] at hcall
          simp only [] at hcall
          cases hMn : listMin (lastN 5 (df.rows.map Candle.low)) with
          | none =>
            rw [hMn] at hcall
            simp only [] at hcall
            exact facts_of_none _ _ _ _ _ hcall
          | some swlow =>
            rw [hMn] at hcall
            simp only [] at hcall
            cases hMx : listMax (lastN 5 (df.rows.map Candle.high)) with
            | none =>
              rw [hMx] at hcall
              simp only [] at hcall
              exact facts_of_none _ _ _ _ _ hcall
            | some swhigh =>
              rw [hMx] at hcall
              simp only [] at hcall
              cases hK : colLast df.emaFast with
              | none =>
                rw [hK] at hcall
                simp only [] at hcall
                exact facts_of_none _ _ _ _ _ hcall
              | some cf =>
                rw [hK] at hcall
                simp only [] at hcall
                cases hS : colLast df.emaSlow with
                | none =>
                  rw [hS] at hcall
                  simp only [] at hcall
                  exact facts_of_none _ _ _ _ _ hcall
                | some cs =>
                  rw [hS] at hcall
                  simp only [] at hcall
                  by_cases hgl :
                      ((!s.conservative.long) && _check_alert_cooldown inp.now s.conservative) = true
                  · rw [if_pos hgl] at hcall
                    cases hA : colLast df.adx with
                    | none =>
                      rw [hA] at hcall
                      simp only [] at hcall
                      exact facts_of_none _ _ _ _ _ hcall
                    | some ca =>
                      rw [hA] at hcall
                      simp only [] at hcall
                      cases hR : colLast df.rsi with
                      | none =>
                        rw [hR] at hcall
                        simp only [] at hcall
                        exact facts_of_none _ _ _ _ _ hcall
                      | some cr =>
                        rw [hR] at hcall
                        simp only [] at hcall
                        split at hcall
                        · injection hcall with ho hs
                          subst ho
                          subst hs
                          simp only [Bool.and_eq_true] at hgl
                          exact stepFacts_update _ _ _ _ hgl.2 _
                        · exact conservative_short_block_facts _ _ _ _ _ _ _ _ _ hcall
                  · rw [if_neg hgl] at hcall
                    exact conservative_short_block_facts _ _ _ _ _ _ _ _ _ hcall

/-- Assembled per-step characterization. -/
lemma step_stepFacts (st : Step) (s : AlertStates) (o : Option Signal)
    (s2 : AlertStates) (h : stepEngine s st = (o, s2)) :
    StepFacts (stratOf st) (stepNow st) s o s2 := by
  cases st with
  | agg inp => exact agg_stepFacts inp s o s2 h
  | mod inp => exact mod_stepFacts inp s o s2 h
  | cons inp => exact cons_stepFacts inp s o s2 h

/-! ### Abstention on deficient tables -/

lemma colLast_none : colLast none = none := rfl

lemma col2_none : col2 none = none := rfl

lemma abstainFacts_self (S : Strat) (s : AlertStates) :
    AbstainFacts S s none s :=
  ⟨rfl, fun _ _ => rfl, rfl, fun h => h, fun h => h⟩

lemma abstainFacts_of_none (S : Strat) (s : AlertStates) (o : Option Signal)
    (s2 : AlertStates) (h : ((none : Option Signal), s) = (o, s2)) :
    AbstainFacts S s o s2 := by
  injection h with h1 h2
  subst h1
  subst h2
  exact abstainFacts_self S s

lemma abstainFacts_resets (S : Strat) (s s1 s2 : AlertStates)
    (h1 : s1 = _reset_alert_state s S Direction.long ∨ s1 = s)
    (h2 : s2 = _reset_alert_state s1 S Direction.short ∨ s2 = s1) :
    AbstainFacts S s none s2 := by
  refine ⟨rfl, ?_, ?_, ?_, ?_⟩
  · intro T hT
    rcases h2 with rfl | rfl <;> rcases h1 with rfl | rfl <;>
      simp only [reset_get_ne _ _ _ _ hT]
  · rcases h2 with rfl | rfl <;> rcases h1 with rfl | rfl <;>
      simp only [reset_get_self_last]
  · rcases h2 with rfl | rfl
    · rcases h1 with rfl | rfl
      · simp only [reset_short_get, reset_long_get]
        exact fun h => Bool.noConfusion h
      · simp only [reset_short_get]
        exact fun h => h
    · rcases h1 with rfl | rfl
      · simp only [reset_long_get]
        exact fun h => Bool.noConfusion h
      · exact fun h => h
  · rcases h2 with rfl | rfl
    · rcases h1 with rfl | rfl
      · simp only [reset_short_get, reset_long_get]
        exact fun h => Bool.noConfusion h
      · simp only [reset_short_get]
        exact fun h => Bool.noConfusion h
    · rcases h1 with rfl | rfl
      · simp only [reset_long_get]
        exact fun h => h
      · exact fun h => h

lemma moderate_reset_block_abstain (s : AlertStates) (cf cs : ℚ)
    (o : Option Signal) (s2 : AlertStates)
    (h : moderate_reset_block s cf cs = (o, s2)) :
    AbstainFacts Strat.moderate_ema_crossover s o s2 := by
  unfold moderate_reset_block at h
  simp only [] at h
  injection h with ho hs
  subst ho
  subst hs
  exact abstainFacts_resets _ s _ _ (ite_eq_or _ _ _) (ite_eq_or _ _ _)

lemma moderate_short_block_abstain (now : ℚ) (s : AlertStates) (c : Candle)
    (pf cf cs : ℚ) (df15 : ModDf15) (df4h : ModDf4h)
    (o : Option Signal) (s2 : AlertStates)
    (hbad : df15.rsi = none ∨ df4h.emaTrend = none)
    (h : moderate_short_block now s c pf cf cs df15 df4h = (o, s2)) :
    AbstainFacts Strat.moderate_ema_crossover s o s2 := by
  unfold moderate_short_block at h
  by_cases hg : ((!s.moderate.short) && _check_alert_cooldown now s.moderate) = true
  · rw [if_pos hg] at h
    rcases hbad with hb | hb
    · rw [hb, colLast_none] at h
      simp only [] at h
      exact abstainFacts_of_none _ _ _ _ h
    · cases hR : colLast df15.rsi with
      | none =>
        rw [hR] at h
        simp only [] at h
        exact abstainFacts_of_none _ _ _ _ h
      | some cr =>
        rw [hR] at h
        simp only [] at h
        rw [hb, colLast_none] at h
        simp only [] at h
        exact abstainFacts_of_none _ _ _ _ h
  · rw [if_neg hg] at h
    exact moderate_reset_block_abstain s cf cs o s2 h

lemma conservative_reset_block_abstain (s : AlertStates) (cf cs : ℚ)
    (o : Option Signal) (s2 : AlertStates)
    (h : conservative_reset_block s cf cs = (o, s2)) :
    AbstainFacts Strat.conservative_trend_rider s o s2 := by
  unfold conservative_reset_block at h
  simp only [] at h
  injection h with ho hs
  subst ho
  subst hs
  exact abstainFacts_resets _ s _ _ (ite_eq_or _ _ _) (ite_eq_or _ _ _)

lemma conservative_short_block_abstain (now : ℚ) (s : AlertStates) (c : Candle)
    (swh cf cs : ℚ) (df : ConsDf)
    (o : Option Signal) (s2 : AlertStates)
    (hbad : df.adx = none ∨ df.rsi = none)
    (h : conservative_short_block now s c swh cf cs df = (o, s2)) :
    AbstainFacts Strat.conservative_trend_rider s o s2 := by
  unfold conservative_short_block at h
  by_cases hg : ((!s.conservative.short) && _check_alert_cooldown now s.conservative) = true
  · rw [if_pos hg] at h
    rcases hbad with hb | hb
    · rw [hb, colLast_none] at h
      simp only [] at h
      exact abstainFacts_of_none _ _ _ _ h
    · cases hA : colLast df.adx with
      | none =>
        rw [hA] at h
        simp only [] at h
        exact abstainFacts_of_none _ _ _ _ h
      | some ca =>
        rw [hA] at h
        simp only [] at h
        rw [hb, colLast_none] at h
        simp only [] at h
        exact abstainFacts_of_none _ _ _ _ h
  · rw [if_neg hg] at h
    exact conservative_reset_block_abstain s cf cs o s2 h

lemma agg_abstention (inp : AggInput) (s : AlertStates)
    (h : ∀ df, inp.enriched = Except.ok df →
      df.rows.length < 2 ∨ df.stochk = none ∨ df.stochd = none) :
    check_aggressive_momentum_ignition inp s = (none, s) := by
  unfold check_aggressive_momentum_ignition
  by_cases h1 : _check_cross_strategy_risk_controls s = false
  · rw [if_pos h1]
  rw [if_neg h1]
  by_cases h2 : _check_time_filter inp.tod 570 960 = false
  · rw [if_pos h2]
  rw [if_neg h2]
  cases hF : inp.fetched with
  | error u => rfl
  | ok fo =>
    cases fo with
    | none => rfl
    | some raw =>
      simp only []
      by_cases h3 : raw.length < 50
      · rw [if_pos h3]
      rw [if_neg h3]
      cases hE : inp.enriched with
      | error u => rfl
      | ok df =>
        simp only []
        by_cases h5 : df.rows.length < 2
        · rw [if_pos h5]
        rw [if_neg h5]
        by_cases h6 : _check_volatility_filter df.rows (18/1000) = false
        · rw [if_pos h6]
        rw [if_neg h6]
        cases hL : df.rows.getLast? with
        | none => rfl
        | some current =>
          simp only []
          by_cases h7 : _check_wick_confirmation current = false
          · rw [if_pos h7]
          rw [if_neg h7]
          rcases h df hE with h4 | h4 | h4
          · exact absurd h4 h5
          · rw [h4]
            try rfl
          · cases hK : col2 df.stochk with
            | none => rfl
            | some pk =>
              rw [h4]
              try rfl

lemma mod_abstain (inp : ModInput) (s : AlertStates) (o : Option Signal)
    (s2 : AlertStates)
    (h : ∀ df15 df4h, inp.enriched15 = Except.ok df15 →
      inp.enriched4h = Except.ok df4h →
      df15.rows.length < 2 ∨ df4h.rows.length < 2 ∨ df15.emaFast = none ∨
      df15.emaSlow = none ∨ df15.rsi = none ∨ df4h.emaTrend = none)
    (hcall : check_moderate_ema_crossover inp s = (o, s2)) :
    AbstainFacts Strat.moderate_ema_crossover s o s2 := by
  unfold check_moderate_ema_crossover at hcall
  by_cases h1 : _check_cross_strategy_risk_controls s = false
  · rw [if_pos h1] at hcall
    exact abstainFacts_of_none _ _ _ _ hcall
  rw [if_neg h1] at hcall
  by_cases h2 : _check_session_filter inp.utcHour = false
  · rw [if_pos h2] at hcall
    exact abstainFacts_of_none _ _ _ _ hcall
  rw [if_neg h2] at hcall
  cases hF : inp.fetched15 with
  | none =>
    rw [hF] at hcall
    simp only [] at hcall
    exact abstainFacts_of_none _ _ _ _ hcall
  | some raw15 =>
    rw [hF] at hcall
    simp only [] at hcall
    cases hF4 : inp.fetched4h with
    | none =>
      rw [hF4] at hcall
      simp only [] at hcall
      exact abstainFacts_of_none _ _ _ _ hcall
    | some raw4h =>
      rw [hF4] at hcall
      simp only [] at hcall
      by_cases h3 : raw15.length < 50 ∨ raw4h.length < 50
      · rw [if_pos h3] at hcall
        exact abstainFacts_of_none _ _ _ _ hcall
      rw [if_neg h3] at hcall
      cases hE : inp.enriched15 with
      | error u =>
        rw [hE] at hcall
        simp only [] at hcall
        exact abstainFacts_of_none _ _ _ _ hcall
      | ok df15 =>
        rw [hE] at hcall
        simp only [] at hcall
        cases hE4 : inp.enriched4h with
        | error u =>
          rw [hE4] at hcall
          simp only [] at hcall
          exact abstainFacts_of_none _ _ _ _ hcall
        | ok df4h =>
          rw [hE4] at hcall
          simp only [] at hcall
          by_cases h5 : df15.rows.length < 2 ∨ df4h.rows.length < 2
          · rw [if_pos h5] at hcall
            exact abstainFacts_of_none _ _ _ _ hcall
          rw [if_neg h5] at hcall
          cases hL : df15.rows.getLast? with
          | none =>
            rw [hL] at hcall
            simp only [] at hcall
            exact abstainFacts_of_none _ _ _ _ hcall
          | some cur15 =>
            rw [hL] at hcall
            simp only [] at hcall
            cases hL4 : df4h.rows.getLast? with
            | none =>
              rw [hL4] at hcall
              simp only [] at hcall
              exact abstainFacts_of_none _ _ _ _ hcall
            | some cur4 =>
              rw [hL4] at hcall
              simp only [] at hcall
              by_cases h6 : _check_candle_body_confirmation cur15 (5/1000) = false
              · rw [if_pos h6] at hcall
                exact abstainFacts_of_none _ _ _ _ hcall
              rw [if_neg h6] at hcall
              by_cases h7 : _check_volume_spike df15.rows (9/5) = false
              · rw [if_pos h7] at hcall
                exact abstainFacts_of_none _ _ _ _ hcall
              rw [if_neg h7] at hcall
              rcases h df15 df4h hE hE4 with h4 | h4 | h4 | h4 | h4 | h4
              · exact absurd (Or.inl h4) h5
              · exact absurd (Or.inr h4) h5
              · rw [h4, col2_none] at hcall
                simp only [] at hcall
                exact abstainFacts_of_none _ _ _ _ hcall
              · cases hK : col2 df15.emaFast with
                | none =>
                  rw [hK] at hcall
                  simp only [] at hcall
                  exact abstainFacts_of_none _ _ _ _ hcall
                | some pf =>
                  rw [hK] at hcall
                  simp only [] at hcall
                  rw [h4, colLast_none] at hcall
                  simp only [] at hcall
                  exact abstainFacts_of_none _ _ _ _ hcall
              · cases hK : col2 df15.emaFast with
                | none =>
                  rw [hK] at hcall
                  simp only [] at hcall
                  exact abstainFacts_of_none _ _ _ _ hcall
                | some pf =>
                  rw [hK] at hcall
                  simp only [] at hcall
                  cases hS : colLast df15.emaSlow with
                  | none =>
                    rw [hS] at hcall
                    simp only [] at hcall
                    exact abstainFacts_of_none _ _ _ _ hcall
                  | some cs =>
                    rw [hS] at hcall
                    simp only [] at hcall
                    by_cases hgl :
                        ((!s.moderate.long) && _check_alert_cooldown inp.now s.moderate) = true
                    · rw [if_pos hgl] at hcall
                      rw [h4, colLast_none] at hcall
                      simp only [] at hcall
                      exact abstainFacts_of_none _ _ _ _ hcall
                    · rw [if_neg hgl] at hcall
                      exact moderate_short_block_abstain _ _ _ _ _ _ _ _ _ _ (Or.inl h4) hcall
              · cases hK : col2 df15.emaFast with
                | none =>
                  rw [hK] at hcall
                  simp only [] at hcall
                  exact abstainFacts_of_none _ _ _ _ hcall
                | some pf =>
                  rw [hK] at hcall
                  simp only [] at hcall
                  cases hS : colLast df15.emaSlow with
                  | none =>
                    rw [hS] at hcall
                    simp only [] at hcall
                    exact abstainFacts_of_none _ _ _ _ hcall
                  | some cs =>
                    rw [hS] at hcall
                    simp only [] at hcall
                    by_cases hgl :
                        ((!s.moderate.long) && _check_alert_cooldown inp.now s.moderate) = true
                    · rw [if_pos hgl] at hcall
                      cases hR : colLast df15.rsi with
                      | none =>
                        rw [hR] at hcall
                        simp only [] at hcall
                        exact abstainFacts_of_none _ _ _ _ hcall
                      | some cr =>
                        rw [hR] at hcall
                        simp only [] at hcall
                        rw [h4, colLast_none] at hcall
                        simp only [] at hcall
                        exact abstainFacts_of_none _ _ _ _ hcall
                    · rw [if_neg hgl] at hcall
                      exact moderate_short_block_abstain _ _ _ _ _ _ _ _ _ _ (Or.inr h4) hcall

lemma cons_abstain (inp : ConsInput) (s : AlertStates) (o : Option Signal)
    (s2 : AlertStates)
    (h : ∀ df, inp.enriched = Except.ok df →
      df.rows.length < 2 ∨ df.emaFast = none ∨ df.emaSlow = none ∨
      df.adx = none ∨ df.rsi = none)
    (hcall : check_conservative_trend_rider inp s = (o, s2)) :
    AbstainFacts Strat.conservative_trend_rider s o s2 := by
  unfold check_conservative_trend_rider at hcall
  by_cases h1 : _check_cross_strategy_risk_controls s = false
  · rw [if_pos h1] at hcall
    exact abstainFacts_of_none _ _ _ _ hcall
  rw [if_neg h1] at hcall
  cases hF : inp.fetched with
  | error u =>
    rw [hF] at hcall
    simp only [] at hcall
    exact abstainFacts_of_none _ _ _ _ hcall
  | ok fo =>
    rw [hF] at hcall
    cases fo with
    | none =>
      simp only [] at hcall
      exact abstainFacts_of_none _ _ _ _ hcall
    | some raw =>
      simp only [] at hcall
      by_cases h3 : raw.length < 250
      · rw [if_pos h3] at hcall
        exact abstainFacts_of_none _ _ _ _ hcall
      rw [if_neg h3] at hcall
      cases hE : inp.enriched with
      | error u =>
        rw [hE] at hcall
        simp only [] at hcall
        exact abstainFacts_of_none _ _ _ _ hcall
      | ok df =>
        rw [hE] at hcall
        simp only [] at hcall
        by_cases h5 : df.rows.length < 3
        · rw [if_pos h5] at hcall
          exact abstainFacts_of_none _ _ _ _ hcall
        rw [if_neg h5] at hcall
        cases hL : df.rows.getLast? with
        | none =>
          rw [hL] at hcall
          simp only [] at hcall
          exact abstainFacts_of_none _ _ _ _ hcall
        | some current =>
          rw [hL] at hcall
          simp only [] at hcall
          cases hMn : listMin (lastN 5 (df.rows.map Candle.low)) with
          | none =>
            rw [hMn] at hcall
            simp only [] at hcall
            exact abstainFacts_of_none _ _ _ _ hcall
          | some swlow =>
            rw [hMn] at hcall
            simp only [] at hcall
            cases hMx : listMax (lastN 5 (df.rows.map Candle.high)) with
            | none =>
              rw [hMx] at hcall
              simp only [] at hcall
              exact abstainFacts_of_none _ _ _ _ hcall
            | some swhigh =>
              rw [hMx] at hcall
              simp only [] at hcall
              rcases h df hE with h4 | h4 | h4 | h4 | h4
              · omega
              · rw [h4, colLast_none] at hcall
                simp only [] at hcall
                exact abstainFacts_of_none _ _ _ _ hcall
              · cases hK : colLast df.emaFast with
                | none =>
                  rw [hK] at hcall
                  simp only [] at hcall
                  exact abstainFacts_of_none _ _ _ _ hcall
                | some cf =>
                  rw [hK] at hcall
                  simp only [] at hcall
                  rw [h4, colLast_none] at hcall
                  simp only [] at hcall
                  exact abstainFacts_of_none _ _ _ _ hcall
              · cases hK : colLast df.emaFast with
                | none =>
                  rw [hK] at hcall
                  simp only [] at hcall
                  exact abstainFacts_of_none _ _ _ _ hcall
                | some cf =>
                  rw [hK] at hcall
                  simp only [] at hcall
                  cases hS : colLast df.emaSlow with
                  | none =>
                    rw [hS] at hcall
                    simp only [] at hcall
                    exact abstainFacts_of_none _ _ _ _ hcall
                  | some cs =>
                    rw [hS] at hcall
                    simp only [] at hcall
                    by_cases hgl :
                        ((!s.conservative.long) && _check_alert_cooldown inp.now s.conservative) = true
                    · rw [if_pos hgl] at hcall
                      rw [h4, colLast_none] at hcall
                      simp only [] at hcall
                      exact abstainFacts_of_none _ _ _ _ hcall
                    · rw [if_neg hgl] at hcall
                      exact conservative_short_block_abstain _ _ _ _ _ _ _ _ _ (Or.inl h4) hcall
              · cases hK : colLast df.emaFast with
                | none =>
                  rw [hK] at hcall
                  simp only [] at hcall
                  exact abstainFacts_of_none _ _ _ _ hcall
                | some cf =>
                  rw [hK] at hcall
                  simp only [] at hcall
                  cases hS : colLast df.emaSlow with
                  | none =>
                    rw [hS] at hcall
                    simp only [] at hcall
                    exact abstainFacts_of_none _ _ _ _ hcall
                  | some cs =>
                    rw [hS] at hcall
                    simp only [] at hcall
                    by_cases hgl :
                        ((!s.conservative.long) && _check_alert_cooldown inp.now s.conservative) = true
                    · rw [if_pos hgl] at hcall
                      cases hA : colLast df.adx with
                      | none =>
                        rw [hA] at hcall
                        simp only [] at hcall
                        exact abstainFacts_of_none _ _ _ _ hcall
                      | some ca =>
                        rw [hA] at hcall
                        simp only [] at hcall
                        rw [h4, colLast_none] at hcall
                        simp only [] at hcall
                        exact abstainFacts_of_none _ _ _ _ hcall
                    · rw [if_neg hgl] at hcall
                      exact conservative_short_block_abstain _ _ _ _ _ _ _ _ _ (Or.inr h4) hcall

/-- C4 (amended): a call whose enriched table has fewer than 2 rows or
lacks a required derived indicator column emits no signal, never stamps
`last_alert_time`, never touches another strategy's entry, and never
SETS a direction flag; the aggressive check leaves the whole dictionary
unchanged, but the moderate and conservative checks may still CLEAR a
stale direction flag, because their reset blocks read only the fast and
slow EMA columns and therefore run even when the guarded columns
(`RSI_14`, trend EMA, `ADX_14`) are missing. -/
theorem abstention_no_emission (st : Step) (s : AlertStates)
    (o : Option Signal) (s2 : AlertStates) (h : tableBad st)
    (hcall : stepEngine s st = (o, s2)) :
    AbstainFacts (stratOf st) s o s2 ∧
      (∀ inp, st = Step.agg inp → s2 = s) := by
  cases st with
  | agg inp =>
    simp only [tableBad] at h
    have he : check_aggressive_momentum_ignition inp s = (none, s) :=
      agg_abstention inp s h
    rw [show stepEngine s (Step.agg inp) =
      check_aggressive_momentum_ignition inp s from rfl, he] at hcall
    injection hcall with ho hs
    subst ho
    subst hs
    exact ⟨abstainFacts_self _ _, fun _ _ => rfl⟩
  | mod inp =>
    simp only [tableBad] at h
    exact ⟨mod_abstain inp s o s2 h hcall, fun inp2 h2 => Step.noConfusion h2⟩
  | cons inp =>
    simp only [tableBad] at h
    exact ⟨cons_abstain inp s o s2 h hcall, fun inp2 h2 => Step.noConfusion h2⟩

set_option maxRecDepth 16000 in
/-- Witness for `abstention_no_emission`, at the very call of the C4
counterexample: the abstention facts hold even on the run that clears
the stale long flag. -/
theorem abstention_no_emission_witness :
    tableBad (Step.mod c4CexInput) ∧
      AbstainFacts Strat.moderate_ema_crossover c4CexState none
        { aggressive := { long := false, short := false, last_alert_time := none }
        , moderate := { long := false, short := false, last_alert_time := some 0 }
        , conservative := { long := false, short := false, last_alert_time := none } } := by
  have hbad : tableBad (Step.mod c4CexInput) := by
    intro df15 df4h h15 h4h
    have e15 : c4CexDf15 = df15 := Except.ok.inj h15
    rw [← e15]
    exact Or.inr (Or.inr (Or.inr (Or.inr (Or.inl rfl))))
  have hcall : stepEngine c4CexState (Step.mod c4CexInput) =
      (none,
        { aggressive := { long := false, short := false, last_alert_time := none }
        , moderate := { long := false, short := false, last_alert_time := some 0 }
        , conservative := { long := false, short := false, last_alert_time := none } }) := by
    decide
  exact ⟨hbad,
    (abstention_no_emission (Step.mod c4CexInput) c4CexState none _ hbad hcall).1⟩

set_option maxRecDepth 16000 in
/-- C4 counterexample: with moderate's long flag set, the cooldown still
active and the `RSI_14` column missing from the enriched table, the
moderate check returns `None` yet CLEARS the long flag — the claimed
absence of any state mutation fails. -/
theorem abstention_mutation_cex :
    tableBad (Step.mod c4CexInput) ∧
      (stepEngine c4CexState (Step.mod c4CexInput)).1 = none ∧
      (c4CexState.get Strat.moderate_ema_crossover).long = true ∧
      ((stepState c4CexState (Step.mod c4CexInput)).get
          Strat.moderate_ema_crossover).long = false := by
  refine ⟨?_, by decide, by decide, by decide⟩
  intro df15 df4h h15 h4h
  have e15 : c4CexDf15 = df15 := Except.ok.inj h15
  rw [← e15]
  exact Or.inr (Or.inr (Or.inr (Or.inr (Or.inl rfl))))

lemma runOutputs_cons (s : AlertStates) (st : Step) (rest : List Step) :
    runOutputs s (st :: rest) = (stepEngine s st).1 :: runOutputs (stepState s st) rest := rfl

/-- Once a strategy's `last_alert_time` is at least `T`, every later
emission for that strategy happens no earlier than `T` plus the
cooldown. -/
lemma cooldown_aux (ts : List Step) : ∀ (s : AlertStates) (S : Strat) (T : ℚ),
    (∃ T0, (s.get S).last_alert_time = some T0 ∧ T ≤ T0) →
    ∀ (j : ℕ) (stj : Step) (sigj : Signal),
      ts.get? j = some stj → stratOf stj = S →
      (runOutputs s ts).get? j = some (some sigj) →
      T + ALERT_COOLDOWN_MINUTES ≤ stepNow stj := by
  induction ts with
  | nil =>
    intro s S T _ j stj sigj hj _ _
    simp at hj
  | cons st rest ih =>
    rintro s S T ⟨T0, hlast, hT0⟩ j stj sigj hj hS ho
    obtain ⟨o, s1, hstep⟩ : ∃ o s1, stepEngine s st = (o, s1) := ⟨_, _, rfl⟩
    have facts := step_stepFacts st s o s1 hstep
    have hs1 : stepState s st = s1 := by rw [stepState, hstep]
    cases j with
    | zero =>
      simp only [List.get?] at hj
      injection hj with hj
      subst hj
      rw [runOutputs_cons] at ho
      simp only [List.get?] at ho
      injection ho with ho
      rw [hstep] at ho
      subst hS
      obtain ⟨_, hcd, _⟩ := facts.2.2 sigj ho
      unfold _check_alert_cooldown at hcd
      rw [hlast] at hcd
      simp only [] at hcd
      have h30 : ALERT_COOLDOWN_MINUTES ≤ stepNow st - T0 := of_decide_eq_true hcd
      linarith
    | succ j0 =>
      have hinv : ∃ T1, (s1.get S).last_alert_time = some T1 ∧ T ≤ T1 := by
        by_cases hSeq : stratOf st = S
        · subst hSeq
          cases o with
          | none =>
            obtain ⟨hl, _⟩ := facts.2.1 rfl
            exact ⟨T0, by rw [hl]; exact hlast, hT0⟩
          | some g =>
            obtain ⟨hl, hcd, _⟩ := facts.2.2 g rfl
            unfold _check_alert_cooldown at hcd
            rw [hlast] at hcd
            simp only [] at hcd
            have h30 : ALERT_COOLDOWN_MINUTES ≤ stepNow st - T0 := of_decide_eq_true hcd
            have hcool30 : (0:ℚ) < ALERT_COOLDOWN_MINUTES := by norm_num [ALERT_COOLDOWN_MINUTES]
            exact ⟨stepNow st, hl, by linarith⟩
        · refine ⟨T0, ?_, hT0⟩
          rw [facts.1 S (fun he => hSeq he.symm)]
          exact hlast
      have hj' : rest.get? j0 = some stj := by simpa using hj
      have ho' : (runOutputs s1 rest).get? j0 = some (some sigj) := by
        rw [runOutputs_cons] at ho
        simp only [List.get?] at ho
        rw [hs1] at ho
        exact ho
      exact ih s1 S T hinv j0 stj sigj hj' hS ho'

/-- Any two emissions for the same strategy in a trace are separated by
at least the cooldown. -/
lemma cooldown_general (ts : List Step) : ∀ (s0 : AlertStates) (i j : ℕ)
    (sti stj : Step) (sigi sigj : Signal) (S : Strat),
    i < j → ts.get? i = some sti → ts.get? j = some stj →
    stratOf sti = S → stratOf stj = S →
    (runOutputs s0 ts).get? i = some (some sigi) →
    (runOutputs s0 ts).get? j = some (some sigj) →
    stepNow sti + ALERT_COOLDOWN_MINUTES ≤ stepNow stj := by
  induction ts with
  | nil =>
    intro s0 i j _ _ _ _ _ _ hi
    simp at hi
  | cons st rest ih =>
    intro s0 i j sti stj sigi sigj S hij hi hj hSi hSj hoi hoj
    obtain ⟨o, s1, hstep⟩ : ∃ o s1, stepEngine s0 st = (o, s1) := ⟨_, _, rfl⟩
    have hs1 : stepState s0 st = s1 := by rw [stepState, hstep]
    obtain ⟨j0, rfl⟩ : ∃ j0, j = j0 + 1 := ⟨j - 1, by omega⟩
    have hj' : rest.get? j0 = some stj := by simpa using hj
    have hoj' : (runOutputs s1 rest).get? j0 = some (some sigj) := by
      rw [runOutputs_cons] at hoj
      simp only [List.get?] at hoj
      rw [hs1] at hoj
      exact hoj
    cases i with
    | zero =>
      simp only [List.get?] at hi
      injection hi with hi
      subst hi
      rw [runOutputs_cons] at hoi
      simp only [List.get?] at hoi
      injection hoi with hoi
      rw [hstep] at hoi
      have facts := step_stepFacts st s0 o s1 hstep
      subst hSi
      obtain ⟨hl1, _, _⟩ := facts.2.2 sigi hoi
      exact cooldown_aux rest s1 (stratOf st) (stepNow st)
        ⟨stepNow st, hl1, le_refl _⟩ j0 stj sigj hj' hSj hoj'
    | succ i0 =>
      have hi' : rest.get? i0 = some sti := by simpa using hi
      have hoi' : (runOutputs s1 rest).get? i0 = some (some sigi) := by
        rw [runOutputs_cons] at hoi
        simp only [List.get?] at hoi
        rw [hs1] at hoi
        exact hoi
      exact ih s1 i0 j0 sti stj sigi sigj S (by omega) hi' hj' hSi hSj hoi' hoj'

/-- C1: along any sequence of strategy-check calls started from the
freshly constructed engine state, no strategy ever has both its long
and short flags set — emitting a signal clears the opposite flag and
resets only ever clear flags. -/
theorem mutual_exclusion_invariant (ts : List Step) :
    mutualExclusion (execTrace alertStatesInit ts) := by
  have step_mutex : ∀ (st : Step) (s : AlertStates), mutualExclusion s →
      mutualExclusion (stepState s st) := by
    intro st s h
    obtain ⟨o, s1, hstep⟩ : ∃ o s1, stepEngine s st = (o, s1) := ⟨_, _, rfl⟩
    have facts := step_stepFacts st s o s1 hstep
    have hs1 : stepState s st = s1 := by rw [stepState, hstep]
    rw [hs1]
    intro T
    by_cases hT : T = stratOf st
    · subst hT
      cases o with
      | none => exact (facts.2.1 rfl).2 (h _)
      | some g => exact (facts.2.2 g rfl).2.2
    · rw [facts.1 T hT]
      exact h T
  have main : ∀ (ts : List Step) (s : AlertStates), mutualExclusion s →
      mutualExclusion (execTrace s ts) := by
    intro ts
    induction ts with
    | nil => exact fun s h => h
    | cons st rest ih => exact fun s h => ih (stepState s st) (step_mutex st s h)
  exact main ts alertStatesInit (by intro S; cases S <;> exact Or.inl rfl)

/-- C2: if a signal is emitted for strategy S in direction d at time T
(call i), no later call emits a signal for the same strategy and the
same direction before `T + ALERT_COOLDOWN_MINUTES`, no matter how many
calls happen in between. -/
theorem cooldown_same_direction (ts : List Step) (s0 : AlertStates) (i j : ℕ)
    (sti stj : Step) (sigi sigj : Signal) (S : Strat)
    (hij : i < j) (hi : ts.get? i = some sti) (hj : ts.get? j = some stj)
    (hSi : stratOf sti = S) (hSj : stratOf stj = S)
    (hoi : (runOutputs s0 ts).get? i = some (some sigi))
    (hoj : (runOutputs s0 ts).get? j = some (some sigj))
    (hdir : sigi.signal_type = sigj.signal_type) :
    stepNow sti + ALERT_COOLDOWN_MINUTES ≤ stepNow stj :=
  cooldown_general ts s0 i j sti stj sigi sigj S hij hi hj hSi hSj hoi hoj

/-- C10: after any emission for a strategy, no emission in either
direction occurs for that strategy before the cooldown elapses, because
`last_alert_time` is a single per-strategy timestamp stamped on every
emission and read by the cooldown check of both directions. -/
theorem cooldown_either_direction (ts : List Step) (s0 : AlertStates) (i j : ℕ)
    (sti stj : Step) (sigi sigj : Signal) (S : Strat)
    (hij : i < j) (hi : ts.get? i = some sti) (hj : ts.get? j = some stj)
    (hSi : stratOf sti = S) (hSj : stratOf stj = S)
    (hoi : (runOutputs s0 ts).get? i = some (some sigi))
    (hoj : (runOutputs s0 ts).get? j = some (some sigj)) :
    stepNow sti + ALERT_COOLDOWN_MINUTES ≤ stepNow stj :=
  cooldown_general ts s0 i j sti stj sigi sigj S hij hi hj hSi hSj hoi hoj

set_option maxRecDepth 16000 in
/-- Witness for `cooldown_same_direction`: two long emissions of the
aggressive strategy at t=0 and t=100 with a flag-clearing call between
them. -/
theorem cooldown_same_direction_witness :
    (runOutputs alertStatesInit c2Trace).get? 0 = some (some aggLongSig) ∧
    (runOutputs alertStatesInit c2Trace).get? 2 = some (some aggLongSig) ∧
    stepNow (Step.agg (aggLongInput 0)) + ALERT_COOLDOWN_MINUTES ≤
      stepNow (Step.agg (aggLongInput 100)) :=
  have h0 : (runOutputs alertStatesInit c2Trace).get? 0 = some (some aggLongSig) := by decide
  have h2 : (runOutputs alertStatesInit c2Trace).get? 2 = some (some aggLongSig) := by decide
  ⟨h0, h2,
   cooldown_same_direction c2Trace alertStatesInit 0 2 (Step.agg (aggLongInput 0))
     (Step.agg (aggLongInput 100)) aggLongSig aggLongSig
     Strat.aggressive_momentum_ignition (by norm_num) rfl rfl rfl rfl h0 h2 rfl⟩

set_option maxRecDepth 16000 in
/-- Witness for `cooldown_either_direction`: a long emission at t=0
followed by a short emission at t=50 for the same strategy. -/
theorem cooldown_either_direction_witness :
    (runOutputs alertStatesInit c10Trace).get? 0 = some (some aggLongSig) ∧
    (runOutputs alertStatesInit c10Trace).get? 1 = some (some aggShortSig) ∧
    stepNow (Step.agg (aggLongInput 0)) + ALERT_COOLDOWN_MINUTES ≤
      stepNow (Step.agg (aggShortInput 50)) :=
  have h0 : (runOutputs alertStatesInit c10Trace).get? 0 = some (some aggLongSig) := by decide
  have h1 : (runOutputs alertStatesInit c10Trace).get? 1 = some (some aggShortSig) := by decide
  ⟨h0, h1,
   cooldown_either_direction c10Trace alertStatesInit 0 1 (Step.agg (aggLongInput 0))
     (Step.agg (aggShortInput 50)) aggLongSig aggShortSig
     Strat.aggressive_momentum_ignition (by norm_num) rfl rfl rfl rfl h0 h1⟩

/-- A branch that returns `None` cannot be the source of an emission. -/
lemma none_ne_emit {C : Prop} {X s2 : AlertStates} {sig : Signal}
    (h : ((none : Option Signal), X) = (some sig, s2)) : C :=
  Option.noConfusion (congrArg Prod.fst h)

/-- Every signal the moderate bearish block emits is a short with the
1.5 % stop and the 2.5:1-derived take-profit. -/
lemma moderate_short_block_reward (now : ℚ) (s : AlertStates) (c : Candle)
    (pf cf cs : ℚ) (df15 : ModDf15) (df4h : ModDf4h) (sig : Signal)
    (s2 : AlertStates)
    (h : moderate_short_block now s c pf cf cs df15 df4h = (some sig, s2)) :
    sig.signal_type = Direction.short ∧
    sig.stop_loss = sig.price * (1015/1000) ∧
    sig.take_profit = sig.price * (9625/10000) ∧
    sig.take_profit = sig.price - (5/2) * (sig.stop_loss - sig.price) := by
  unfold moderate_short_block at h
  by_cases hg : ((!s.moderate.short) && _check_alert_cooldown now s.moderate) = true
  · rw [if_pos hg] at h
    cases hR : colLast df15.rsi with
    | none =>
      rw [hR] at h
      simp only [] at h
      exact none_ne_emit h
    | some cr =>
      rw [hR] at h
      simp only [] at h
      cases hT : colLast df4h.emaTrend with
      | none =>
        rw [hT] at h
        simp only [] at h
        exact none_ne_emit h
      | some ct =>
        rw [hT] at h
        simp only [] at h
        split at h
        · injection h with h1 h2
          injection h1 with h1
          subst h1
          exact ⟨rfl, rfl, rfl, by ring⟩
        · unfold moderate_reset_block at h
          simp only [] at h
          exact none_ne_emit h
  · rw [if_neg hg] at h
    unfold moderate_reset_block at h
    simp only [] at h
    exact none_ne_emit h

/-- C6: every signal the Moderate EMA Crossover strategy emits carries
`stop_loss = price × 0.985` and `take_profit = price × 1.0375` when
long (resp. `× 1.015` / `× 0.9625` when short), and the take-profit is
exactly the entry plus 2.5 times the entry-to-stop distance — the
2.5:1 reward-to-risk ratio applied to the stop-loss percentage, not an
independently configured value. -/
theorem moderate_reward_risk (inp : ModInput) (s s2 : AlertStates) (sig : Signal)
    (h : check_moderate_ema_crossover inp s = (some sig, s2)) :
    (sig.signal_type = Direction.long →
       sig.stop_loss = sig.price * (985/1000) ∧
       sig.take_profit = sig.price * (10375/10000) ∧
       sig.take_profit = sig.price + (5/2) * (sig.price - sig.stop_loss)) ∧
    (sig.signal_type = Direction.short →
       sig.stop_loss = sig.price * (1015/1000) ∧
       sig.take_profit = sig.price * (9625/10000) ∧
       sig.take_profit = sig.price - (5/2) * (sig.stop_loss - sig.price)) := by
  unfold check_moderate_ema_crossover at h
  by_cases h1 : _check_cross_strategy_risk_controls s = false
  · rw [if_pos h1] at h
    exact none_ne_emit h
  rw [if_neg h1] at h
  by_cases h2 : _check_session_filter inp.utcHour = false
  · rw [if_pos h2] at h
    exact none_ne_emit h
  rw [if_neg h2] at h
  cases hF : inp.fetched15 with
  | none =>
    rw [hF] at h
    exact none_ne_emit h
  | some raw15 =>
    rw [hF] at h
    simp only [] at h
    cases hF4 : inp.fetched4h with
    | none =>
      rw [hF4] at h
      exact none_ne_emit h
    | some raw4h =>
      rw [hF4] at h
      simp only [] at h
      by_cases h3 : raw15.length < 50 ∨ raw4h.length < 50
      · rw [if_pos h3] at h
        exact none_ne_emit h
      rw [if_neg h3] at h
      cases hE : inp.enriched15 with
      | error u =>
        rw [hE] at h
        exact none_ne_emit h
      | ok df15 =>
        rw [hE] at h
        simp only [] at h
        cases hE4 : inp.enriched4h with
        | error u =>
          rw [hE4] at h
          exact none_ne_emit h
        | ok df4h =>
          rw [hE4] at h
          simp only [] at h
          by_cases h5 : df15.rows.length < 2 ∨ df4h.rows.length < 2
          · rw [if_pos h5] at h
            exact none_ne_emit h
          rw [if_neg h5] at h
          cases hL : df15.rows.getLast? with
          | none =>
            rw [hL] at h
            exact none_ne_emit h
          | some cur15 =>
            rw [hL] at h
            simp only [] at h
            cases hL4 : df4h.rows.getLast? with
            | none =>
              rw [hL4] at h
              exact none_ne_emit h
            | some cur4 =>
              rw [hL4] at h
              simp only [] at h
              by_cases h6 : _check_candle_body_confirmation cur15 (5/1000) = false
              · rw [if_pos h6] at h
                exact none_ne_emit h
              rw [if_neg h6] at h
              by_cases h7 : _check_volume_spike df15.rows (9/5) = false
              · rw [if_pos h7] at h
                exact none_ne_emit h
              rw [if_neg h7] at h
              cases hK : col2 df15.emaFast with
              | none =>
                rw [hK] at h
                exact none_ne_emit h
              | some pf =>
                rw [hK] at h
                simp only [] at h
                cases hS : colLast df15.emaSlow with
                | none =>
                  rw [hS] at h
                  exact none_ne_emit h
                | some cs =>
                  rw [hS] at h
                  simp only [] at h
                  by_cases hgl :
                      ((!s.moderate.long) && _check_alert_cooldown inp.now s.moderate) = true
                  · rw [if_pos hgl] at h
                    cases hR : colLast df15.rsi with
                    | none =>
                      rw [hR] at h
                      exact none_ne_emit h
                    | some cr =>
                      rw [hR] at h
                      simp only [] at h
                      cases hT4 : colLast df4h.emaTrend with
                      | none =>
                        rw [hT4] at h
                        exact none_ne_emit h
                      | some ct =>
                        rw [hT4] at h
                        simp only [] at h
                        split at h
                        · injection h with h1 h2
                          injection h1 with h1
                          subst h1
                          refine ⟨fun _ => ⟨rfl, rfl, by ring⟩, fun hd => ?_⟩
                          exact absurd hd (by simp)
                        · have hsb := moderate_short_block_reward _ _ _ _ _ _ _ _ _ _ h
                          refine ⟨fun hd => absurd (hsb.1.symm.trans hd) (by simp),
                            fun _ => ⟨hsb.2.1, hsb.2.2.1, hsb.2.2.2⟩⟩
                  · rw [if_neg hgl] at h
                    have hsb := moderate_short_block_reward _ _ _ _ _ _ _ _ _ _ h
                    refine ⟨fun hd => absurd (hsb.1.symm.trans hd) (by simp),
                      fun _ => ⟨hsb.2.1, hsb.2.2.1, hsb.2.2.2⟩⟩

set_option maxRecDepth 16000 in
/-- Witness for `moderate_reward_risk` at a concrete emitting call. -/
theorem moderate_reward_risk_witness :
    check_moderate_ema_crossover c6Input alertStatesInit =
      (some c6Sig, (check_moderate_ema_crossover c6Input alertStatesInit).2) ∧
    c6Sig.stop_loss = c6Sig.price * (985/1000) ∧
    c6Sig.take_profit = c6Sig.price * (10375/10000) ∧
    c6Sig.take_profit = c6Sig.price + (5/2) * (c6Sig.price - c6Sig.stop_loss) :=
  have hc : check_moderate_ema_crossover c6Input alertStatesInit =
      (some c6Sig, (check_moderate_ema_crossover c6Input alertStatesInit).2) := by
    refine Prod.ext ?_ rfl
    decide
  ⟨hc, (moderate_reward_risk c6Input alertStatesInit _ c6Sig hc).1 rfl⟩

/-- When the `RSI_11` column is present, aligned, and the frame has at
least 21 rows, a `true` bullish divergence check means exactly: the
price minimum of the most recent 10 candles is below the minimum of the
prior 10, and the RSI minimum of the most recent 10 is above the RSI
minimum of the prior 10. -/
lemma divergence_bullish_strict (df : AggDf) (rsiCol : List ℚ)
    (hcol : df.rsi11 = some rsiCol)
    (hclen : rsiCol.length = df.rows.length)
    (hlen : 21 ≤ df.rows.length)
    (hdiv : _check_rsi_divergence df "bullish" (df.rows.length - 1) = true) :
    ∀ p1 p2 r1 r2,
      listMin ((df.rows.map Candle.close).drop (df.rows.length - 10)) = some p1 →
      listMin (((df.rows.map Candle.close).drop (df.rows.length - 20)).take 10) = some p2 →
      listMin (rsiCol.drop (df.rows.length - 10)) = some r1 →
      listMin ((rsiCol.drop (df.rows.length - 20)).take 10) = some r2 →
      p1 < p2 ∧ r2 < r1 := by
  intro p1 p2 r1 r2 hp1 hp2 hr1 hr2
  unfold _check_rsi_divergence at hdiv
  rw [if_neg (show ¬(df.rows.length - 1 < 20) by omega)] at hdiv
  rw [hcol] at hdiv
  simp only [] at hdiv
  rw [show df.rows.length - 1 - 20 = df.rows.length - 21 from by omega] at hdiv
  have hlr : ((rsiCol.drop (df.rows.length - 21)).take 21).length = 21 := by
    rw [List.length_take, List.length_drop, hclen]
    omega
  have hlp : (((df.rows.map Candle.close).drop (df.rows.length - 21)).take 21).length = 21 := by
    rw [List.length_take, List.length_drop, List.length_map]
    omega
  rw [if_neg (by rw [hlr, hlp]; omega)] at hdiv
  rw [if_pos trivial] at hdiv
  have eA : (((df.rows.map Candle.close).drop (df.rows.length - 21)).take 21).drop 11 =
      (df.rows.map Candle.close).drop (df.rows.length - 10) := by
    rw [List.drop_take, List.drop_drop,
      show df.rows.length - 21 + 11 = df.rows.length - 10 from by omega]
    exact List.take_of_length_le (by rw [List.length_drop, List.length_map]; omega)
  have eB : ((((df.rows.map Candle.close).drop (df.rows.length - 21)).take 21).drop 1).take 10 =
      ((df.rows.map Candle.close).drop (df.rows.length - 20)).take 10 := by
    rw [List.drop_take, List.take_take, List.drop_drop,
      show df.rows.length - 21 + 1 = df.rows.length - 20 from by omega,
      show min 10 (21 - 1) = 10 from rfl]
  have eC : ((rsiCol.drop (df.rows.length - 21)).take 21).drop 11 =
      rsiCol.drop (df.rows.length - 10) := by
    rw [List.drop_take, List.drop_drop,
      show df.rows.length - 21 + 11 = df.rows.length - 10 from by omega]
    exact List.take_of_length_le (by rw [List.length_drop, hclen]; omega)
  have eD : (((rsiCol.drop (df.rows.length - 21)).take 21).drop 1).take 10 =
      (rsiCol.drop (df.rows.length - 20)).take 10 := by
    rw [List.drop_take, List.take_take, List.drop_drop,
      show df.rows.length - 21 + 1 = df.rows.length - 20 from by omega,
      show min 10 (21 - 1) = 10 from rfl]
  rw [eA, eB, eC, eD, hp1, hp2, hr1, hr2] at hdiv
  simp only [] at hdiv
  exact of_decide_eq_true hdiv

/-- C8 (amended): when the enriched table really carries an aligned
`RSI_11` column and at least 21 rows, an emitted long signal implies
the bullish divergence genuinely holds over the trailing 20-candle
window.  (When the column is absent — as on the live aggressive path,
whose indicator list only requests STOCHRSI — or the table is 20 rows
or shorter, the filter passes vacuously.) -/
theorem divergence_enforced (inp : AggInput) (s s2 : AlertStates) (sig : Signal)
    (df : AggDf) (rsiCol : List ℚ)
    (hdf : inp.enriched = Except.ok df)
    (hcol : df.rsi11 = some rsiCol)
    (hclen : rsiCol.length = df.rows.length)
    (hlen : 21 ≤ df.rows.length)
    (h : check_aggressive_momentum_ignition inp s = (some sig, s2))
    (hlong : sig.signal_type = Direction.long) :
    ∀ p1 p2 r1 r2,
      listMin ((df.rows.map Candle.close).drop (df.rows.length - 10)) = some p1 →
      listMin (((df.rows.map Candle.close).drop (df.rows.length - 20)).take 10) = some p2 →
      listMin (rsiCol.drop (df.rows.length - 10)) = some r1 →
      listMin ((rsiCol.drop (df.rows.length - 20)).take 10) = some r2 →
      p1 < p2 ∧ r2 < r1 := by
  unfold check_aggressive_momentum_ignition at h
  by_cases h1 : _check_cross_strategy_risk_controls s = false
  · rw [if_pos h1] at h
    exact none_ne_emit h
  rw [if_neg h1] at h
  by_cases h2 : _check_time_filter inp.tod 570 960 = false
  · rw [if_pos h2] at h
    exact none_ne_emit h
  rw [if_neg h2] at h
  cases hF : inp.fetched with
  | error u =>
    rw [hF] at h
    exact none_ne_emit h
  | ok fo =>
    rw [hF] at h
    cases fo with
    | none =>
      simp only [] at h
      exact none_ne_emit h
    | some raw =>
      simp only [] at h
      by_cases h3 : raw.length < 50
      · rw [if_pos h3] at h
        exact none_ne_emit h
      rw [if_neg h3] at h
      rw [hdf] at h
      simp only [] at h
      by_cases h5 : df.rows.length < 2
      · rw [if_pos h5] at h
        exact none_ne_emit h
      rw [if_neg h5] at h
      by_cases h6 : _check_volatility_filter df.rows (18/1000) = false
      · rw [if_pos h6] at h
        exact none_ne_emit h
      rw [if_neg h6] at h
      cases hL : df.rows.getLast? with
      | none =>
        rw [hL] at h
        exact none_ne_emit h
      | some current =>
        rw [hL] at h
        simp only [] at h
        by_cases h7 : _check_wick_confirmation current = false
        · rw [if_pos h7] at h
          exact none_ne_emit h
        rw [if_neg h7] at h
        cases hK : col2 df.stochk with
        | none =>
          rw [hK] at h
          exact none_ne_emit h
        | some pk =>
          rw [hK] at h
          simp only [] at h
          cases hD : col2 df.stochd with
          | none =>
            rw [hD] at h
            exact none_ne_emit h
          | some pd =>
            rw [hD] at h
            simp only [] at h
            split at h
            · next hcond =>
                injection h with hsig hstate
                injection hsig with hsig
                subst hsig
                simp only [Bool.and_eq_true] at hcond
                exact divergence_bullish_strict df rsiCol hcol hclen hlen hcond.2
            · split at h
              · next hcond =>
                  injection h with hsig hstate
                  injection hsig with hsig
                  subst hsig
                  exact absurd hlong (by simp)
              · exact none_ne_emit h

set_option maxRecDepth 16000 in
/-- C8 counterexample: on a 20-row frame (so the divergence window test
is skipped) with a constant `RSI_11` column and flat prices, the
aggressive strategy emits a long signal although no bullish divergence
holds — the price minimum of the most recent 10 candles equals (is not
below) the minimum of the prior 10, and likewise for RSI. -/
theorem divergence_filter_bypassed_cex :
    ((check_aggressive_momentum_ignition c8CexInput alertStatesInit).1).map
        Signal.signal_type = some Direction.long ∧
    c8CexDf.rows.length = 20 ∧
    listMin ((c8CexDf.rows.map Candle.close).drop (c8CexDf.rows.length - 10)) = some 100 ∧
    listMin (((c8CexDf.rows.map Candle.close).drop (c8CexDf.rows.length - 20)).take 10) =
      some 100 ∧
    listMin ((List.replicate 20 (50:ℚ)).drop (c8CexDf.rows.length - 10)) = some 50 ∧
    listMin (((List.replicate 20 (50:ℚ)).drop (c8CexDf.rows.length - 20)).take 10) = some 50 ∧
    c8CexDf.rsi11 = some (List.replicate 20 (50:ℚ)) := by
  refine ⟨by decide, by decide, by decide, by decide, by decide, by decide, by decide⟩

set_option maxRecDepth 16000 in
/-- Witness for `divergence_enforced`: a 21-row frame with an aligned
RSI column on which the divergence genuinely holds and a long signal is
emitted. -/
theorem divergence_enforced_witness :
    check_aggressive_momentum_ignition c8WitInput alertStatesInit =
      (some aggLongSig, (check_aggressive_momentum_ignition c8WitInput alertStatesInit).2) ∧
    ((199:ℚ)/2 < 100 ∧ (30:ℚ) < 35) :=
  have hc : check_aggressive_momentum_ignition c8WitInput alertStatesInit =
      (some aggLongSig, (check_aggressive_momentum_ignition c8WitInput alertStatesInit).2) := by
    refine Prod.ext ?_ rfl
    decide
  ⟨hc,
   divergence_enforced c8WitInput alertStatesInit _ aggLongSig c8WitDf
     (List.replicate 11 (30:ℚ) ++ List.replicate 10 (35:ℚ))
     rfl rfl (by decide) (by decide) hc rfl (199/2) 100 35 30
     (by decide) (by decide) (by decide) (by decide)⟩

end TradeAlert
